import Mathlib

/-!
Shallow embedding of the procedural mesh-generation library
(`Common/GeometryGenerator.cpp`) of the Castle Alpha repository, together
with theorems settling the frozen claims about it.

Modelling conventions:
* `float` arithmetic is idealized as real arithmetic (`ℝ`); `uint32`
  tessellation counts and indices are `Nat` (all claims carry hypotheses
  keeping the modelled runs inside the range where `uint32` and `Nat`
  arithmetic agree).
* A fixed-size local C array (`Vertex v[N]; uint32 i[M];`) has
  indeterminate initial contents.  It is embedded as an arbitrary function
  `Nat → α` (the unknown initial stack contents) updated by the exact
  sequence of element writes the source performs, then converted to a list
  of length `N`.  Where the source assigns every slot, the array is embedded
  directly as the resulting list literal.
* `CreateDiamond` contains a `for` loop whose entire body is
  `return meshData;` (the `Subdivide` call is commented out), and control
  falls off the end of the non-void function when the loop runs zero times;
  it is therefore embedded as returning `Option MeshData`, with `none` for
  the undefined-behaviour path.
* `Vertex`/`MeshData` live in the header `GeometryGenerator.h`, which is not
  among the given sources; they are modelled from the spec (section 3,
  DATA MODEL).
* `XMVector3Normalize` (DirectXMath) divides by the length only when the
  length is positive, so the zero vector normalizes to the zero vector.
-/

namespace GeometryGenerator

/-- Modelled from the spec (missing header `GeometryGenerator.h`):
a 3-component single-precision vector, idealized over `ℝ`. -/
structure Vec3 where
  x : ℝ
  y : ℝ
  z : ℝ

/-- Modelled from the spec (missing header `GeometryGenerator.h`):
a 2-component texture coordinate. -/
structure Vec2 where
  x : ℝ
  y : ℝ

/-- Modelled from the spec (missing header `GeometryGenerator.h`):
`Vertex` = position, normal, tangent, texture coordinate. -/
structure Vertex where
  Position : Vec3
  Normal : Vec3
  TangentU : Vec3
  TexC : Vec2

/-- The 11-argument `Vertex(px,py,pz,nx,ny,nz,tx,ty,tz,u,v)` constructor
used throughout the generator file. -/
def mkVertex (px py pz nx ny nz tx ty tz u v : ℝ) : Vertex :=
  ⟨⟨px, py, pz⟩, ⟨nx, ny, nz⟩, ⟨tx, ty, tz⟩, ⟨u, v⟩⟩

/-- The all-zero vertex, used as the `getD` default when reading lists. -/
def vzero : Vertex := mkVertex 0 0 0 0 0 0 0 0 0 0 0

/-- Modelled from the spec (missing header `GeometryGenerator.h`):
`MeshData` = vertex sequence plus flat 32-bit index sequence. -/
structure MeshData where
  Vertices : List Vertex
  Indices32 : List Nat

/-- Componentwise sum of two 3-vectors. -/
def v3add (a b : Vec3) : Vec3 := ⟨a.x + b.x, a.y + b.y, a.z + b.z⟩

/-- Scalar multiple of a 3-vector. -/
noncomputable def v3smul (c : ℝ) (a : Vec3) : Vec3 := ⟨c * a.x, c * a.y, c * a.z⟩

/-- Componentwise sum of two 2-vectors. -/
def v2add (a b : Vec2) : Vec2 := ⟨a.x + b.x, a.y + b.y⟩

/-- Scalar multiple of a 2-vector. -/
noncomputable def v2smul (c : ℝ) (a : Vec2) : Vec2 := ⟨c * a.x, c * a.y⟩

/-- Squared Euclidean length of a 3-vector. -/
def normSq (a : Vec3) : ℝ := a.x ^ 2 + a.y ^ 2 + a.z ^ 2

/-- Euclidean length of a 3-vector (`XMVector3Length`). -/
noncomputable def vlen (a : Vec3) : ℝ := Real.sqrt (normSq a)

open scoped Classical in
/-- `XMVector3Normalize`: scales by the reciprocal length when the length
is positive; the zero vector yields the zero vector (the reference scalar
implementation guards the division). -/
noncomputable def normalize (a : Vec3) : Vec3 :=
  if normSq a = 0 then ⟨0, 0, 0⟩ else v3smul (vlen a)⁻¹ a

/-- Cross product (`XMVector3Cross`). -/
noncomputable def cross (a b : Vec3) : Vec3 :=
  ⟨a.y * b.z - a.z * b.y, a.z * b.x - a.x * b.z, a.x * b.y - a.y * b.x⟩

/-- `GeometryGenerator::MidPoint` (GeometryGenerator.cpp lines 1136-1164):
position and UV are the linear average of the two vertices; normal and
tangent are the linear average renormalized. -/
noncomputable def MidPoint (v0 v1 : Vertex) : Vertex :=
  { Position := v3smul 0.5 (v3add v0.Position v1.Position)
    Normal := normalize (v3smul 0.5 (v3add v0.Normal v1.Normal))
    TangentU := normalize (v3smul 0.5 (v3add v0.TangentU v1.TangentU))
    TexC := v2smul 0.5 (v2add v0.TexC v1.TexC) }


/-! C-array machinery: a fixed-size local array is an arbitrary initial
function (indeterminate stack contents) updated by the exact element writes
the source performs, then read out as a list of the array's length. -/

/-- One array element write `a[p.1] = p.2`. -/
def upd {α : Type} (f : Nat → α) (p : Nat × α) : Nat → α :=
  fun j => if j = p.1 then p.2 else f j

/-- A sequence of array element writes, performed left to right. -/
def writes {α : Type} (f : Nat → α) (ws : List (Nat × α)) : Nat → α :=
  ws.foldl upd f

/-- Reading out the first `n` elements of an array. -/
def arrToList {α : Type} (n : Nat) (f : Nat → α) : List α :=
  (List.range n).map f

/-- Writes of the consecutive elements of `tbl` starting at slot `base`. -/
def tableWrites {α : Type} (base : Nat) (tbl : List α) : List (Nat × α) :=
  tbl.enum.map (fun p => (base + p.1, p.2))


/-- Vertex fetched through the index buffer:
`inputCopy.Vertices[ inputCopy.Indices32[k] ]` (out-of-range reads, which
the source never performs on well-formed input, default to `vzero`). -/
noncomputable def triVert (m : MeshData) (k : Nat) : Vertex :=
  m.Vertices.getD (m.Indices32.getD k 0) vzero

/-- The six vertices `Subdivide` pushes for source triangle `i`:
`v0, v1, v2, m0 = MidPoint v0 v1, m1 = MidPoint v1 v2, m2 = MidPoint v0 v2`
(GeometryGenerator.cpp lines 1095-1116). -/
noncomputable def subdivVerts (m : MeshData) (i : Nat) : List Vertex :=
  [triVert m (i * 3), triVert m (i * 3 + 1), triVert m (i * 3 + 2),
   MidPoint (triVert m (i * 3)) (triVert m (i * 3 + 1)),
   MidPoint (triVert m (i * 3 + 1)) (triVert m (i * 3 + 2)),
   MidPoint (triVert m (i * 3)) (triVert m (i * 3 + 2))]

/-- The twelve indices `Subdivide` pushes for source triangle `i`
(GeometryGenerator.cpp lines 1118-1132). -/
def subdivIdx (i : Nat) : List Nat :=
  [i * 6 + 0, i * 6 + 3, i * 6 + 5,
   i * 6 + 3, i * 6 + 4, i * 6 + 5,
   i * 6 + 5, i * 6 + 4, i * 6 + 2,
   i * 6 + 3, i * 6 + 1, i * 6 + 4]

/-- `GeometryGenerator::Subdivide` (GeometryGenerator.cpp lines 1073-1134):
saves a copy of the input, clears both arrays, then for each input triangle
pushes its three corners plus three edge midpoints and four new triangles. -/
noncomputable def Subdivide (m : MeshData) : MeshData :=
  { Vertices := (List.range (m.Indices32.length / 3)).flatMap (subdivVerts m)
    Indices32 := (List.range (m.Indices32.length / 3)).flatMap subdivIdx }

/-- The 24-entry vertex table of the plain box (`CreateBar`,
GeometryGenerator.cpp lines 25-58); also the "chocolate bottom" block of
`CreateChocolate` (lines 209-242) and the outer block of `CreateBar2`
(lines 691-724, where the inner block reuses it with scaled extents). -/
noncomputable def barVertexTable (w2 h2 d2 : ℝ) : List Vertex :=
  [mkVertex (-w2) (-h2) (-d2) 0 0 (-1) 1 0 0 0 1,
   mkVertex (-w2) h2 (-d2) 0 0 (-1) 1 0 0 0 0,
   mkVertex w2 h2 (-d2) 0 0 (-1) 1 0 0 1 0,
   mkVertex w2 (-h2) (-d2) 0 0 (-1) 1 0 0 1 1,
   mkVertex (-w2) (-h2) d2 0 0 1 (-1) 0 0 1 1,
   mkVertex w2 (-h2) d2 0 0 1 (-1) 0 0 0 1,
   mkVertex w2 h2 d2 0 0 1 (-1) 0 0 0 0,
   mkVertex (-w2) h2 d2 0 0 1 (-1) 0 0 1 0,
   mkVertex (-w2) h2 (-d2) 0 1 0 1 0 0 0 1,
   mkVertex (-w2) h2 d2 0 1 0 1 0 0 0 0,
   mkVertex w2 h2 d2 0 1 0 1 0 0 1 0,
   mkVertex w2 h2 (-d2) 0 1 0 1 0 0 1 1,
   mkVertex (-w2) (-h2) (-d2) 0 (-1) 0 (-1) 0 0 1 1,
   mkVertex w2 (-h2) (-d2) 0 (-1) 0 (-1) 0 0 0 1,
   mkVertex w2 (-h2) d2 0 (-1) 0 (-1) 0 0 0 0,
   mkVertex (-w2) (-h2) d2 0 (-1) 0 (-1) 0 0 1 0,
   mkVertex (-w2) (-h2) d2 (-1) 0 0 0 0 (-1) 0 1,
   mkVertex (-w2) h2 d2 (-1) 0 0 0 0 (-1) 0 0,
   mkVertex (-w2) h2 (-d2) (-1) 0 0 0 0 (-1) 1 0,
   mkVertex (-w2) (-h2) (-d2) (-1) 0 0 0 0 (-1) 1 1,
   mkVertex w2 (-h2) (-d2) 1 0 0 0 0 1 0 1,
   mkVertex w2 h2 (-d2) 1 0 0 0 0 1 0 0,
   mkVertex w2 h2 d2 1 0 0 0 0 1 1 0,
   mkVertex w2 (-h2) d2 1 0 0 0 0 1 1 1]

/-- The 24-entry vertex table of the inset-top box variant (`CreateBox`,
GeometryGenerator.cpp lines 120-153): the four top-face corners (and their
duplicates on the side faces) are scaled by the fixed factor `0.9`.  Also
the "chocolate top" blocks of `CreateChocolate` (lines 245-278 etc.). -/
noncomputable def boxVertexTable (w2 h2 d2 : ℝ) : List Vertex :=
  [mkVertex (-w2) (-h2) (-d2) 0 0 (-1) 1 0 0 0 1,
   mkVertex (-w2 * 0.9) (h2 * 0.9) (0.9 * (-d2)) 0 0 (-1) 1 0 0 0 0,
   mkVertex (w2 * 0.9) (h2 * 0.9) (0.9 * (-d2)) 0 0 (-1) 1 0 0 1 0,
   mkVertex w2 (-h2) (-d2) 0 0 (-1) 1 0 0 1 1,
   mkVertex (-w2) (-h2) d2 0 0 1 (-1) 0 0 1 1,
   mkVertex w2 (-h2) d2 0 0 1 (-1) 0 0 0 1,
   mkVertex (w2 * 0.9) (h2 * 0.9) (0.9 * d2) 0 0 1 (-1) 0 0 0 0,
   mkVertex (-w2 * 0.9) (h2 * 0.9) (0.9 * d2) 0 0 1 (-1) 0 0 1 0,
   mkVertex (-w2 * 0.9) (h2 * 0.9) (0.9 * (-d2)) 0 1 0 1 0 0 0 1,
   mkVertex (-w2 * 0.9) (h2 * 0.9) (0.9 * d2) 0 1 0 1 0 0 0 0,
   mkVertex (w2 * 0.9) (h2 * 0.9) (0.9 * d2) 0 1 0 1 0 0 1 0,
   mkVertex (w2 * 0.9) (h2 * 0.9) (0.9 * (-d2)) 0 1 0 1 0 0 1 1,
   mkVertex (-w2) (-h2) (-d2) 0 (-1) 0 (-1) 0 0 1 1,
   mkVertex w2 (-h2) (-d2) 0 (-1) 0 (-1) 0 0 0 1,
   mkVertex w2 (-h2) d2 0 (-1) 0 (-1) 0 0 0 0,
   mkVertex (-w2) (-h2) d2 0 (-1) 0 (-1) 0 0 1 0,
   mkVertex (-w2) (-h2) d2 (-1) 0 0 0 0 (-1) 0 1,
   mkVertex (-w2 * 0.9) (h2 * 0.9) (0.9 * d2) (-1) 0 0 0 0 (-1) 0 0,
   mkVertex (-w2 * 0.9) (h2 * 0.9) (0.9 * (-d2)) (-1) 0 0 0 0 (-1) 1 0,
   mkVertex (-w2) (-h2) (-d2) (-1) 0 0 0 0 (-1) 1 1,
   mkVertex w2 (-h2) (-d2) 1 0 0 0 0 1 0 1,
   mkVertex (w2 * 0.9) (h2 * 0.9) (0.9 * (-d2)) 1 0 0 0 0 1 0 0,
   mkVertex (w2 * 0.9) (h2 * 0.9) (0.9 * d2) 1 0 0 0 0 1 1 0,
   mkVertex w2 (-h2) d2 1 0 0 0 0 1 1 1]

/-- The 36-entry cube index table shared by `CreateBar` (lines 69-90),
`CreateBox` (lines 164-185) and both written blocks of `CreateChocolate`
(lines 617-638 and 641-662). -/
def cubeIndexTable : List Nat :=
  [0, 1, 2, 0, 2, 3,
   4, 5, 6, 4, 6, 7,
   8, 9, 10, 8, 10, 11,
   12, 13, 14, 12, 14, 15,
   16, 17, 18, 16, 18, 19,
   20, 21, 22, 20, 22, 23]

/-- Base mesh of `CreateBar` (before subdivision). -/
noncomputable def BarBase (width height depth : ℝ) : MeshData :=
  ⟨barVertexTable (0.5 * width) (0.5 * height) (0.5 * depth), cubeIndexTable⟩

/-- `GeometryGenerator::CreateBar` (GeometryGenerator.cpp lines 10-101):
plain box; `numSubdivisions` is clamped to 6, then `Subdivide` is applied
that many times. -/
noncomputable def CreateBar (width height depth : ℝ) (numSubdivisions : Nat) : MeshData :=
  Subdivide^[min numSubdivisions 6] (BarBase width height depth)

/-- Base mesh of `CreateBox` (before subdivision). -/
noncomputable def BoxBase (width height depth : ℝ) : MeshData :=
  ⟨boxVertexTable (0.5 * width) (0.5 * height) (0.5 * depth), cubeIndexTable⟩

/-- `GeometryGenerator::CreateBox` (GeometryGenerator.cpp lines 104-196):
the inset-top box variant; clamp to 6 then subdivide. -/
noncomputable def CreateBox (width height depth : ℝ) (numSubdivisions : Nat) : MeshData :=
  Subdivide^[min numSubdivisions 6] (BoxBase width height depth)

/-- The vertex writes of `CreateChocolate` into `Vertex v[264]`
(GeometryGenerator.cpp lines 209-602): the plain block at slots 0-23, then
ten inset "chocolate top" blocks at slots 24k (k = 1..10).  The ninth top
block (lines 533-566) contains the source's slip: its bottom-face writes go
to `v[233]` and `v[231]` instead of `v[230]` and `v[231]` (lines 553-554),
so slot 230 is never assigned and slot 233 is written twice (the later
left-face write, line 558, wins). -/
noncomputable def chocolateVertexWrites (w2 h2 d2 : ℝ) : List (Nat × Vertex) :=
  tableWrites 0 (barVertexTable w2 h2 d2) ++
  tableWrites 24 (boxVertexTable w2 h2 d2) ++
  tableWrites 48 (boxVertexTable w2 h2 d2) ++
  tableWrites 72 (boxVertexTable w2 h2 d2) ++
  tableWrites 96 (boxVertexTable w2 h2 d2) ++
  tableWrites 120 (boxVertexTable w2 h2 d2) ++
  tableWrites 144 (boxVertexTable w2 h2 d2) ++
  tableWrites 168 (boxVertexTable w2 h2 d2) ++
  tableWrites 192 (boxVertexTable w2 h2 d2) ++
  ((boxVertexTable w2 h2 d2).enum.map
    (fun p => (216 + (if p.1 = 14 then 17 else p.1), p.2))) ++
  tableWrites 240 (boxVertexTable w2 h2 d2)

/-- The index writes of `CreateChocolate` into `uint32 i[396]`
(GeometryGenerator.cpp lines 617-662): only slots 0-35 and 360-395 are ever
assigned; slots 36-359 keep their indeterminate stack contents. -/
def chocolateIndexWrites : List (Nat × Nat) :=
  tableWrites 0 cubeIndexTable ++ tableWrites 360 cubeIndexTable

/-- Base mesh of `CreateChocolate`; `jV`/`jI` are the indeterminate initial
contents of the local arrays `Vertex v[264]` and `uint32 i[396]`. -/
noncomputable def ChocolateBase (width height depth : ℝ)
    (jV : Nat → Vertex) (jI : Nat → Nat) : MeshData :=
  ⟨arrToList 264 (writes jV
      (chocolateVertexWrites (0.5 * width) (0.5 * height) (0.5 * depth))),
   arrToList 396 (writes jI chocolateIndexWrites)⟩

/-- `GeometryGenerator::CreateChocolate` (GeometryGenerator.cpp lines
198-673).  The subdivision loop (lines 668-669) is commented out in the
source, so the clamped `numSubdivisions` is never used and the base mesh is
returned for every count. -/
noncomputable def CreateChocolate (width height depth : ℝ) (numSubdivisions : Nat)
    (jV : Nat → Vertex) (jI : Nat → Nat) : MeshData :=
  ChocolateBase width height depth jV jI

/-- The 84-entry index table of `CreateBar2` (GeometryGenerator.cpp lines
771-823): outer faces minus the top, inner faces (reversed winding) minus
the top, then the eight-triangle rim joining outer and inner top edges. -/
def bar2IndexTable : List Nat :=
  [0, 1, 2, 0, 2, 3,
   4, 5, 6, 4, 6, 7,
   12, 13, 14, 12, 14, 15,
   16, 17, 18, 16, 18, 19,
   20, 21, 22, 20, 22, 23,
   24, 26, 25, 24, 27, 26,
   28, 30, 29, 28, 31, 30,
   36, 38, 37, 36, 39, 38,
   40, 42, 41, 40, 43, 42,
   44, 46, 45, 44, 47, 46,
   8, 9, 33, 8, 33, 32,
   9, 10, 34, 9, 34, 33,
   10, 11, 35, 10, 35, 34,
   11, 8, 32, 11, 32, 35]

/-- Base mesh of `CreateBar2` (GeometryGenerator.cpp lines 683-825):
an outer plain box plus an inner plain box scaled by `in = 0.95`
(the inner 24 vertices, lines 727-760, are the plain table evaluated at
`w2*in, h2*in, d2*in`). -/
noncomputable def Bar2Base (width height depth : ℝ) : MeshData :=
  ⟨barVertexTable (0.5 * width) (0.5 * height) (0.5 * depth) ++
     barVertexTable (0.5 * width * 0.95) (0.5 * height * 0.95) (0.5 * depth * 0.95),
   bar2IndexTable⟩

/-- `GeometryGenerator::CreateBar2` (GeometryGenerator.cpp lines 675-834):
clamp to 6 then subdivide. -/
noncomputable def CreateBar2 (width height depth : ℝ) (numSubdivisions : Nat) : MeshData :=
  Subdivide^[min numSubdivisions 6] (Bar2Base width height depth)


/-- One interior ring vertex of `CreateSphere` (GeometryGenerator.cpp lines
858-886): spherical-to-cartesian position, normalized azimuthal tangent,
normal = normalized position, UV from the angles. -/
noncomputable def sphereRingVertex (radius : ℝ) (sliceCount stackCount i j : Nat) : Vertex :=
  let phi : ℝ := i * (Real.pi / stackCount)
  let theta : ℝ := j * (2 * Real.pi / sliceCount)
  let pos : Vec3 := ⟨radius * Real.sin phi * Real.cos theta,
                     radius * Real.cos phi,
                     radius * Real.sin phi * Real.sin theta⟩
  { Position := pos
    TangentU := normalize ⟨-radius * Real.sin phi * Real.sin theta, 0,
                           radius * Real.sin phi * Real.cos theta⟩
    Normal := normalize pos
    TexC := ⟨theta / (2 * Real.pi), phi / Real.pi⟩ }

/-- `GeometryGenerator::CreateSphere` (GeometryGenerator.cpp lines 836-945):
top pole vertex, `stackCount-1` rings of `sliceCount+1` vertices, bottom
pole vertex; top fan, interior quads, bottom fan.  (Faithful for
`stackCount ≥ 2`; for smaller counts the `uint32` subtractions in the
source wrap around.) -/
noncomputable def CreateSphere (radius : ℝ) (sliceCount stackCount : Nat) : MeshData :=
  let topVertex := mkVertex 0 radius 0 0 1 0 1 0 0 0 0
  let bottomVertex := mkVertex 0 (-radius) 0 0 (-1) 0 1 0 0 0 1
  let verts := topVertex ::
    ((List.range (stackCount - 1)).flatMap (fun i =>
      (List.range (sliceCount + 1)).map (fun j =>
        sphereRingVertex radius sliceCount stackCount (i + 1) j)) ++ [bottomVertex])
  let ringVertexCount := sliceCount + 1
  let southPoleIndex := verts.length - 1
  let topFan := (List.range sliceCount).flatMap (fun i => [0, i + 2, i + 1])
  let innerIdx := (List.range (stackCount - 2)).flatMap (fun i =>
    (List.range sliceCount).flatMap (fun j =>
      [1 + i * ringVertexCount + j, 1 + i * ringVertexCount + j + 1,
       1 + (i + 1) * ringVertexCount + j, 1 + (i + 1) * ringVertexCount + j,
       1 + i * ringVertexCount + j + 1, 1 + (i + 1) * ringVertexCount + j + 1]))
  let bottomFan := (List.range sliceCount).flatMap (fun i =>
    [southPoleIndex, southPoleIndex - ringVertexCount + i,
     southPoleIndex - ringVertexCount + i + 1])
  ⟨verts, topFan ++ innerIdx ++ bottomFan⟩

/-- The 20-entry vertex table of `CreateCandy` (GeometryGenerator.cpp lines
962-985): a hexagonal top ring around a top center, the mirrored bottom,
and a widened middle ring. -/
noncomputable def candyVertexTable (w2 h2 d2 : ℝ) : List Vertex :=
  [mkVertex (0 * w2) h2 (0 * d2) 0 0 (-1) 1 0 0 0 1,
   mkVertex (-0.5 * w2) h2 (-0.5 * d2) 0 0 (-1) 1 0 0 0 0,
   mkVertex (-0.75 * w2) h2 (0 * d2) 0 0 (-1) 1 0 0 1 0,
   mkVertex (-0.5 * w2) h2 (0.5 * d2) 0 0 (-1) 1 0 0 1 1,
   mkVertex (0.5 * w2) h2 (0.5 * d2) 0 0 1 (-1) 0 0 1 1,
   mkVertex (0.75 * w2) h2 (0 * d2) 0 0 1 (-1) 0 0 0 1,
   mkVertex (0.5 * w2) h2 (-0.5 * d2) 0 0 1 (-1) 0 0 0 0,
   mkVertex (0 * w2) (-h2) (0 * d2) 0 0 (-1) 1 0 0 0 1,
   mkVertex (-0.5 * w2) (-h2) (-0.5 * d2) 0 0 (-1) 1 0 0 0 0,
   mkVertex (-0.75 * w2) (-h2) (0 * d2) 0 0 (-1) 1 0 0 1 0,
   mkVertex (-0.5 * w2) (-h2) (0.5 * d2) 0 0 (-1) 1 0 0 1 1,
   mkVertex (0.5 * w2) (-h2) (0.5 * d2) 0 0 1 (-1) 0 0 1 1,
   mkVertex (0.75 * w2) (-h2) (0 * d2) 0 0 1 (-1) 0 0 0 1,
   mkVertex (0.5 * w2) (-h2) (-0.5 * d2) 0 0 1 (-1) 0 0 0 0,
   mkVertex (-0.5 * (w2 * 1.5)) 0 (-0.5 * (d2 * 1.5)) 0 0 (-1) 1 0 0 0 0,
   mkVertex (-0.75 * (w2 * 1.5)) 0 (0 * (d2 * 1.5)) 0 0 (-1) 1 0 0 1 0,
   mkVertex (-0.5 * (w2 * 1.5)) 0 (0.5 * (d2 * 1.5)) 0 0 (-1) 1 0 0 1 1,
   mkVertex (0.5 * (w2 * 1.5)) 0 (0.5 * (d2 * 1.5)) 0 0 1 (-1) 0 0 1 1,
   mkVertex (0.75 * (w2 * 1.5)) 0 (0 * (d2 * 1.5)) 0 0 1 (-1) 0 0 0 1,
   mkVertex (0.5 * (w2 * 1.5)) 0 (-0.5 * (d2 * 1.5)) 0 0 1 (-1) 0 0 0 0]

/-- The 108-entry index table of `CreateCandy` (GeometryGenerator.cpp lines
997-1060, active assignments only). -/
def candyIndexTable : List Nat :=
  [0, 1, 2, 0, 2, 3, 0, 3, 4, 0, 4, 5, 0, 5, 6, 0, 6, 1,
   7, 9, 8, 7, 10, 9, 7, 11, 10, 7, 12, 11, 7, 13, 12, 7, 8, 13,
   1, 14, 2, 2, 15, 3, 3, 16, 4, 4, 17, 5, 5, 18, 6, 6, 19, 1,
   14, 15, 2, 15, 16, 3, 16, 17, 4, 17, 18, 5, 18, 19, 6, 19, 14, 1,
   14, 8, 15, 15, 9, 16, 16, 10, 17, 17, 11, 18, 18, 12, 19, 19, 13, 14,
   8, 9, 15, 9, 10, 16, 10, 11, 17, 11, 12, 18, 12, 13, 19, 13, 8, 14]

/-- Base mesh of `CreateCandy`. -/
noncomputable def CandyBase (width height depth : ℝ) : MeshData :=
  ⟨candyVertexTable (0.5 * width) (0.5 * height) (0.5 * depth), candyIndexTable⟩

/-- `GeometryGenerator::CreateCandy` (GeometryGenerator.cpp lines 947-1071):
clamp to 6 then subdivide. -/
noncomputable def CreateCandy (width height depth : ℝ) (numSubdivisions : Nat) : MeshData :=
  Subdivide^[min numSubdivisions 6] (CandyBase width height depth)

/-- The twelve icosahedron positions of `CreateGeosphere`
(GeometryGenerator.cpp lines 1175-1186). -/
noncomputable def icosahedronPos : List Vec3 :=
  [⟨-0.525731, 0, 0.850651⟩, ⟨0.525731, 0, 0.850651⟩,
   ⟨-0.525731, 0, -0.850651⟩, ⟨0.525731, 0, -0.850651⟩,
   ⟨0, 0.850651, 0.525731⟩, ⟨0, 0.850651, -0.525731⟩,
   ⟨0, -0.850651, 0.525731⟩, ⟨0, -0.850651, -0.525731⟩,
   ⟨0.850651, 0.525731, 0⟩, ⟨-0.850651, 0.525731, 0⟩,
   ⟨0.850651, -0.525731, 0⟩, ⟨-0.850651, -0.525731, 0⟩]

/-- The sixty icosahedron indices of `CreateGeosphere`
(GeometryGenerator.cpp lines 1188-1194). -/
def icosahedronIdx : List Nat :=
  [1, 4, 0, 4, 9, 0, 4, 5, 9, 8, 5, 4, 1, 8, 4,
   1, 10, 8, 10, 3, 8, 8, 3, 5, 3, 2, 5, 3, 7, 2,
   3, 10, 7, 10, 6, 7, 6, 11, 7, 6, 0, 11, 6, 1, 0,
   10, 1, 6, 11, 0, 9, 2, 11, 9, 5, 2, 9, 11, 2, 7]

/-- Two-argument arctangent `atan2f(y, x)`, as the argument of the complex
number `x + y i`. -/
noncomputable def atan2 (y x : ℝ) : ℝ := Complex.arg ⟨x, y⟩

/-- The per-vertex projection step of `CreateGeosphere`
(GeometryGenerator.cpp lines 1206-1236): project the position onto the
sphere of the given radius, take the unit direction as the normal, and
re-derive UV and tangent from spherical coordinates. -/
noncomputable def geosphereProject (radius : ℝ) (v : Vertex) : Vertex :=
  let n := normalize v.Position
  let p := v3smul radius n
  let theta0 := atan2 p.z p.x
  let theta := if theta0 < 0 then theta0 + 2 * Real.pi else theta0
  let phi := Real.arccos (p.y / radius)
  { Position := p
    Normal := n
    TexC := ⟨theta / (2 * Real.pi), phi / Real.pi⟩
    TangentU := normalize ⟨-radius * Real.sin phi * Real.sin theta, 0,
                           radius * Real.sin phi * Real.cos theta⟩ }

/-- Base icosahedron mesh of `CreateGeosphere` (GeometryGenerator.cpp lines
1196-1200): `Vertices.resize(12)` leaves every attribute with indeterminate
default-constructed contents `jV`, after which only `Position` is
assigned. -/
noncomputable def GeosphereBase (jV : Nat → Vertex) : MeshData :=
  ⟨(List.range 12).map (fun k =>
      { jV k with Position := icosahedronPos.getD k ⟨0, 0, 0⟩ }),
   icosahedronIdx⟩

/-- `GeometryGenerator::CreateGeosphere` (GeometryGenerator.cpp lines
1166-1239): clamp to 6, subdivide the icosahedron, then project every
vertex onto the sphere. -/
noncomputable def CreateGeosphere (radius : ℝ) (numSubdivisions : Nat)
    (jV : Nat → Vertex) : MeshData :=
  let m := Subdivide^[min numSubdivisions 6] (GeosphereBase jV)
  ⟨m.Vertices.map (geosphereProject radius), m.Indices32⟩

/-- One side-ring vertex shared by `CreateCylinder` (GeometryGenerator.cpp
lines 1257-1307) and `CreateCone` (lines 1819-1869): ring `i`, slice `j`.
For the cone the source sets `dr = bottomRadius`, which coincides with
`bottomRadius - topRadius` at `topRadius = 0`. -/
noncomputable def cylinderRingVertex (bottomRadius topRadius height : ℝ)
    (sliceCount stackCount i j : Nat) : Vertex :=
  let y : ℝ := -0.5 * height + i * (height / stackCount)
  let r : ℝ := bottomRadius + i * ((topRadius - bottomRadius) / stackCount)
  let dTheta : ℝ := 2 * Real.pi / sliceCount
  let c := Real.cos (j * dTheta)
  let s := Real.sin (j * dTheta)
  let dr := bottomRadius - topRadius
  { Position := ⟨r * c, y, r * s⟩
    TexC := ⟨(j : ℝ) / sliceCount, 1 - (i : ℝ) / stackCount⟩
    TangentU := ⟨-s, 0, c⟩
    Normal := normalize (cross ⟨-s, 0, c⟩ ⟨dr * c, -height, dr * s⟩) }

/-- The side (stacked rings plus quad indices) shared by `CreateCylinder`
and `CreateCone`. -/
noncomputable def cylinderSide (bottomRadius topRadius height : ℝ)
    (sliceCount stackCount : Nat) : MeshData :=
  let ringVertexCount := sliceCount + 1
  ⟨(List.range (stackCount + 1)).flatMap (fun i =>
      (List.range (sliceCount + 1)).map (fun j =>
        cylinderRingVertex bottomRadius topRadius height sliceCount stackCount i j)),
   (List.range stackCount).flatMap (fun i =>
      (List.range sliceCount).flatMap (fun j =>
        [i * ringVertexCount + j, (i + 1) * ringVertexCount + j,
         (i + 1) * ringVertexCount + j + 1, i * ringVertexCount + j,
         (i + 1) * ringVertexCount + j + 1, i * ringVertexCount + j + 1]))⟩

/-- One top-cap ring vertex (`BuildCylinderTopCap`, GeometryGenerator.cpp
lines 1344-1355): duplicated ring position at `y = height/2`, cap-facing
normal `(0, 1, 0)`, planar UV scaled down by the height. -/
noncomputable def topCapRingVertex (topRadius height : ℝ) (sliceCount i : Nat) : Vertex :=
  let x := topRadius * Real.cos (i * (2 * Real.pi / sliceCount))
  let z := topRadius * Real.sin (i * (2 * Real.pi / sliceCount))
  mkVertex x (0.5 * height) z 0 1 0 1 0 0 (x / height + 0.5) (z / height + 0.5)

/-- One bottom-cap ring vertex (`BuildCylinderBottomCap`,
GeometryGenerator.cpp lines 1383-1394): cap-facing normal `(0, -1, 0)`. -/
noncomputable def bottomCapRingVertex (bottomRadius height : ℝ) (sliceCount i : Nat) : Vertex :=
  let x := bottomRadius * Real.cos (i * (2 * Real.pi / sliceCount))
  let z := bottomRadius * Real.sin (i * (2 * Real.pi / sliceCount))
  mkVertex x (-0.5 * height) z 0 (-1) 0 1 0 0 (x / height + 0.5) (z / height + 0.5)

/-- `GeometryGenerator::BuildCylinderTopCap` (GeometryGenerator.cpp lines
1335-1369): append `sliceCount+1` duplicated ring vertices and one center
vertex, then `sliceCount` fan triangles `(center, base+i+1, base+i)`. -/
noncomputable def BuildCylinderTopCap (bottomRadius topRadius height : ℝ)
    (sliceCount stackCount : Nat) (meshData : MeshData) : MeshData :=
  let baseIndex := meshData.Vertices.length
  let verts := meshData.Vertices ++
    (List.range (sliceCount + 1)).map (topCapRingVertex topRadius height sliceCount) ++
    [mkVertex 0 (0.5 * height) 0 0 1 0 1 0 0 0.5 0.5]
  let centerIndex := verts.length - 1
  ⟨verts, meshData.Indices32 ++
    (List.range sliceCount).flatMap (fun i =>
      [centerIndex, baseIndex + i + 1, baseIndex + i])⟩

/-- `GeometryGenerator::BuildCylinderBottomCap` (GeometryGenerator.cpp lines
1371-1408): as the top cap but at `y = -height/2`, normal `(0,-1,0)`, and
the mirrored fan winding `(center, base+i, base+i+1)`. -/
noncomputable def BuildCylinderBottomCap (bottomRadius topRadius height : ℝ)
    (sliceCount stackCount : Nat) (meshData : MeshData) : MeshData :=
  let baseIndex := meshData.Vertices.length
  let verts := meshData.Vertices ++
    (List.range (sliceCount + 1)).map (bottomCapRingVertex bottomRadius height sliceCount) ++
    [mkVertex 0 (-0.5 * height) 0 0 (-1) 0 1 0 0 0.5 0.5]
  let centerIndex := verts.length - 1
  ⟨verts, meshData.Indices32 ++
    (List.range sliceCount).flatMap (fun i =>
      [centerIndex, baseIndex + i, baseIndex + i + 1])⟩

/-- `GeometryGenerator::CreateCylinder` (GeometryGenerator.cpp lines
1241-1333): side, then top cap, then bottom cap. -/
noncomputable def CreateCylinder (bottomRadius topRadius height : ℝ)
    (sliceCount stackCount : Nat) : MeshData :=
  BuildCylinderBottomCap bottomRadius topRadius height sliceCount stackCount
    (BuildCylinderTopCap bottomRadius topRadius height sliceCount stackCount
      (cylinderSide bottomRadius topRadius height sliceCount stackCount))

/-- `GeometryGenerator::CreateCone` (GeometryGenerator.cpp lines 1803-1894):
the cylinder side with top radius 0, closed by the bottom cap only — no
top-cap call appears in the source. -/
noncomputable def CreateCone (bottomRadius height : ℝ)
    (sliceCount stackCount : Nat) : MeshData :=
  BuildCylinderBottomCap bottomRadius 0 height sliceCount stackCount
    (cylinderSide bottomRadius 0 height sliceCount stackCount)

/-- `GeometryGenerator::CreateGrid` (GeometryGenerator.cpp lines 1410-1473):
an `m` by `n` lattice in the XZ plane with uniform normal `(0,1,0)` and two
triangles per lattice cell. -/
noncomputable def CreateGrid (width depth : ℝ) (m n : Nat) : MeshData :=
  ⟨(List.range m).flatMap (fun i =>
      (List.range n).map (fun j =>
        { Position := ⟨-(0.5 * width) + j * (width / (n - 1)), 0,
                       0.5 * depth - i * (depth / (m - 1))⟩
          Normal := ⟨0, 1, 0⟩
          TangentU := ⟨1, 0, 0⟩
          TexC := ⟨j * (1 / ((n : ℝ) - 1)), i * (1 / ((m : ℝ) - 1))⟩ })),
   (List.range (m - 1)).flatMap (fun i =>
      (List.range (n - 1)).flatMap (fun j =>
        [i * n + j, i * n + j + 1, (i + 1) * n + j,
         (i + 1) * n + j, i * n + j + 1, (i + 1) * n + j + 1]))⟩

/-- `GeometryGenerator::CreateQuad` (GeometryGenerator.cpp lines 1475-1516):
a single rectangle facing `-z`. -/
noncomputable def CreateQuad (x y w h depth : ℝ) : MeshData :=
  ⟨[mkVertex x (y - h) depth 0 0 (-1) 1 0 0 0 1,
    mkVertex x y depth 0 0 (-1) 1 0 0 0 0,
    mkVertex (x + w) y depth 0 0 (-1) 1 0 0 1 0,
    mkVertex (x + w) (y - h) depth 0 0 (-1) 1 0 0 1 1],
   [0, 1, 2, 0, 2, 3]⟩


/-- The 4-entry vertex table of `CreateTetrahedron` (GeometryGenerator.cpp
lines 1535-1538). -/
noncomputable def tetrahedronVertexTable (w2 h2 d2 : ℝ) : List Vertex :=
  [mkVertex (0 * w2) (1 * h2) (-0.5 * d2) 0 0 (-1) 1 0 0 0 1,
   mkVertex (-1 * w2) (0 * h2) (-1 * d2) 0 0 (-1) 1 0 0 0 0,
   mkVertex (0 * w2) (0 * h2) (1 * d2) 0 0 (-1) 1 0 0 1 0,
   mkVertex (1 * w2) (0 * h2) (-1 * d2) 0 0 (-1) 1 0 0 1 1]

/-- The 12-entry index table of `CreateTetrahedron` (lines 1552-1562). -/
def tetrahedronIndexTable : List Nat :=
  [2, 1, 3, 0, 3, 1, 0, 1, 2, 0, 2, 3]

/-- Base mesh of `CreateTetrahedron`. -/
noncomputable def TetrahedronBase (width height depth : ℝ) : MeshData :=
  ⟨tetrahedronVertexTable (0.5 * width) (0.5 * height) (0.5 * depth),
   tetrahedronIndexTable⟩

/-- `GeometryGenerator::CreateTetrahedron` (GeometryGenerator.cpp lines
1520-1573): clamp to 6 then subdivide. -/
noncomputable def CreateTetrahedron (width height depth : ℝ) (numSubdivisions : Nat) : MeshData :=
  Subdivide^[min numSubdivisions 6] (TetrahedronBase width height depth)

/-- The 5-entry vertex table of `CreatePyramid` (GeometryGenerator.cpp
lines 1595-1599). -/
noncomputable def pyramidVertexTable (w2 h2 d2 : ℝ) : List Vertex :=
  [mkVertex (0 * w2) (1 * h2) (0 * d2) 0 0 (-1) 1 0 0 0 1,
   mkVertex (-1 * w2) (0 * h2) (-1 * d2) 0 0 (-1) 1 0 0 0 0,
   mkVertex (-1 * w2) (0 * h2) (1 * d2) 0 0 (-1) 1 0 0 1 0,
   mkVertex (1 * w2) (0 * h2) (1 * d2) 0 0 (-1) 1 0 0 1 1,
   mkVertex (1 * w2) (0 * h2) (-1 * d2) 0 0 (-1) 1 0 0 1 1]

/-- The 18-entry index table of `CreatePyramid` (lines 1612-1626). -/
def pyramidIndexTable : List Nat :=
  [4, 2, 1, 4, 3, 2, 0, 4, 1, 0, 1, 2, 0, 2, 3, 0, 3, 4]

/-- Base mesh of `CreatePyramid`. -/
noncomputable def PyramidBase (width height depth : ℝ) : MeshData :=
  ⟨pyramidVertexTable (0.5 * width) (0.5 * height) (0.5 * depth),
   pyramidIndexTable⟩

/-- `GeometryGenerator::CreatePyramid` (GeometryGenerator.cpp lines
1580-1637): clamp to 6 then subdivide. -/
noncomputable def CreatePyramid (width height depth : ℝ) (numSubdivisions : Nat) : MeshData :=
  Subdivide^[min numSubdivisions 6] (PyramidBase width height depth)

/-- The 6-entry vertex table of `CreateWedge` (GeometryGenerator.cpp lines
1659-1664). -/
noncomputable def wedgeVertexTable (w2 h2 d2 : ℝ) : List Vertex :=
  [mkVertex (-1 * w2) (0 * h2) (-0.5 * d2) 0 0 (-1) 1 0 0 0 1,
   mkVertex (-1 * w2) (0 * h2) (0.5 * d2) 0 0 (-1) 1 0 0 0 0,
   mkVertex (1 * w2) (0 * h2) (0.5 * d2) 0 0 (-1) 1 0 0 1 0,
   mkVertex (1 * w2) (0 * h2) (-0.5 * d2) 0 0 (-1) 1 0 0 1 1,
   mkVertex (-1 * w2) (1 * h2) (-0.5 * d2) 0 0 (-1) 1 0 0 1 1,
   mkVertex (-1 * w2) (1 * h2) (0.5 * d2) 0 0 (-1) 1 0 0 1 1]

/-- The 24-entry index table of `CreateWedge` (lines 1676-1692). -/
def wedgeIndexTable : List Nat :=
  [1, 0, 3, 1, 3, 2,
   1, 5, 4, 1, 4, 0,
   4, 5, 2, 4, 2, 3,
   0, 4, 3, 1, 2, 5]

/-- Base mesh of `CreateWedge`. -/
noncomputable def WedgeBase (width height depth : ℝ) : MeshData :=
  ⟨wedgeVertexTable (0.5 * width) (0.5 * height) (0.5 * depth),
   wedgeIndexTable⟩

/-- `GeometryGenerator::CreateWedge` (GeometryGenerator.cpp lines
1644-1704): clamp to 6 then subdivide. -/
noncomputable def CreateWedge (width height depth : ℝ) (numSubdivisions : Nat) : MeshData :=
  Subdivide^[min numSubdivisions 6] (WedgeBase width height depth)

/-- The 14 vertex values `CreateHexagon` actually assigns
(GeometryGenerator.cpp lines 1725-1740): a hexagonal top ring around a
center vertex and a widened, lowered bottom ring.  The local array is
`Vertex v[24]` and all 24 entries are copied into the mesh (line 1750), so
slots 14-23 keep their indeterminate stack contents. -/
noncomputable def hexagonVertexTable (w2 h2 d2 : ℝ) : List Vertex :=
  [mkVertex (0 * w2) (0 * h2) (0 * d2) 0 0 (-1) 1 0 0 0 1,
   mkVertex (-0.5 * w2) (0 * h2) (-0.5 * d2) 0 0 (-1) 1 0 0 0 0,
   mkVertex (-0.75 * w2) (0 * h2) (0 * d2) 0 0 (-1) 1 0 0 1 0,
   mkVertex (-0.5 * w2) (0 * h2) (0.5 * d2) 0 0 (-1) 1 0 0 1 1,
   mkVertex (0.5 * w2) (0 * h2) (0.5 * d2) 0 0 1 (-1) 0 0 1 1,
   mkVertex (0.75 * w2) (0 * h2) (0 * d2) 0 0 1 (-1) 0 0 0 1,
   mkVertex (0.5 * w2) (0 * h2) (-0.5 * d2) 0 0 1 (-1) 0 0 0 0,
   mkVertex (0 * (w2 + 0.5)) (-0.3 * (h2 + 0.5)) (0 * (d2 + 0.5)) 0 0 (-1) 1 0 0 0 1,
   mkVertex (-0.5 * (w2 + 0.5)) (-0.3 * (h2 + 0.5)) (-0.5 * (d2 + 0.5)) 0 0 (-1) 1 0 0 0 0,
   mkVertex (-0.75 * (w2 + 0.5)) (-0.3 * (h2 + 0.5)) (0 * (d2 + 0.5)) 0 0 (-1) 1 0 0 1 0,
   mkVertex (-0.5 * (w2 + 0.5)) (-0.3 * (h2 + 0.5)) (0.5 * (d2 + 0.5)) 0 0 (-1) 1 0 0 1 1,
   mkVertex (0.5 * (w2 + 0.5)) (-0.3 * (h2 + 0.5)) (0.5 * (d2 + 0.5)) 0 0 1 (-1) 0 0 1 1,
   mkVertex (0.75 * (w2 + 0.5)) (-0.3 * (h2 + 0.5)) (0 * (d2 + 0.5)) 0 0 1 (-1) 0 0 0 1,
   mkVertex (0.5 * (w2 + 0.5)) (-0.3 * (h2 + 0.5)) (-0.5 * (d2 + 0.5)) 0 0 1 (-1) 0 0 0 0]

/-- The 72-entry index table of `CreateHexagon` (lines 1759-1786). -/
def hexagonIndexTable : List Nat :=
  [0, 1, 2, 0, 2, 3, 0, 3, 4, 0, 4, 5, 0, 5, 6, 0, 6, 1,
   7, 9, 8, 7, 10, 9, 7, 11, 10, 7, 12, 11, 7, 13, 12, 7, 8, 13,
   1, 8, 2, 2, 9, 3, 3, 10, 4, 4, 11, 5, 5, 12, 6, 6, 13, 1,
   8, 9, 2, 9, 10, 3, 10, 11, 4, 11, 12, 5, 12, 13, 6, 13, 8, 1]

/-- Base mesh of `CreateHexagon`; `jV` is the indeterminate initial
contents of the local array `Vertex v[24]`, visible in the result at slots
14-23. -/
noncomputable def HexagonBase (width height depth : ℝ) (jV : Nat → Vertex) : MeshData :=
  ⟨arrToList 24 (writes jV (tableWrites 0
      (hexagonVertexTable (0.5 * width) (0.5 * height) (0.5 * depth)))),
   hexagonIndexTable⟩

/-- `GeometryGenerator::CreateHexagon` (GeometryGenerator.cpp lines
1710-1797): clamp to 6 then subdivide. -/
noncomputable def CreateHexagon (width height depth : ℝ) (numSubdivisions : Nat)
    (jV : Nat → Vertex) : MeshData :=
  Subdivide^[min numSubdivisions 6] (HexagonBase width height depth jV)

/-- The 40-entry vertex table of `CreateDiamond` (GeometryGenerator.cpp
lines 1914-1979). -/
noncomputable def diamondVertexTable (w2 h2 d2 : ℝ) : List Vertex :=
  [mkVertex (0 * w2) (0 * h2) (1 * d2) 0 0 (-1) 1 0 0 0 1,
   mkVertex (-0.5 * w2) (0.5 * h2) (0 * d2) 0 0 (-1) 1 0 0 0 0,
   mkVertex (0.5 * w2) (0.5 * h2) (0 * d2) 0 0 (-1) 1 0 0 1 0,
   mkVertex (-0.25 * w2) (1 * h2) (0.5 * d2) 0 0 (-1) 1 0 0 1 1,
   mkVertex (0.25 * w2) (1 * h2) (0.5 * d2) 0 0 1 (-1) 0 0 1 1,
   mkVertex (0 * w2) (0 * h2) (1 * d2) 0 0 (-1) 1 0 0 0 1,
   mkVertex (0.5 * w2) (0.5 * h2) (0 * d2) 0 0 (-1) 1 0 0 1 0,
   mkVertex (1 * w2) (0.5 * h2) (0.5 * d2) 0 0 1 (-1) 0 0 1 0,
   mkVertex (0.25 * w2) (1 * h2) (0.5 * d2) 0 1 0 1 0 0 0 1,
   mkVertex (0.50 * w2) (1 * h2) (0.75 * d2) 0 1 0 1 0 0 0 0,
   mkVertex (0 * w2) (0 * h2) (1 * d2) 0 1 0 1 0 0 1 0,
   mkVertex (-1 * w2) (0.5 * h2) (0.5 * d2) 0 1 0 1 0 0 1 1,
   mkVertex (-0.5 * w2) (0.5 * h2) (0 * d2) 0 (-1) 0 (-1) 0 0 1 1,
   mkVertex (-0.50 * w2) (1 * h2) (0.75 * d2) 0 (-1) 0 (-1) 0 0 0 1,
   mkVertex (-0.25 * w2) (1 * h2) (0.5 * d2) 0 (-1) 0 (-1) 0 0 0 0,
   mkVertex (0 * w2) (0 * h2) (1 * d2) 0 (-1) 0 (-1) 0 0 1 0,
   mkVertex (-0.5 * w2) (0.5 * h2) (2 * d2) (-1) 0 0 0 0 (-1) 0 1,
   mkVertex (0.5 * w2) (0.5 * h2) (2 * d2) (-1) 0 0 0 0 (-1) 0 0,
   mkVertex (-0.25 * w2) (1 * h2) (1.5 * d2) (-1) 0 0 0 0 (-1) 1 0,
   mkVertex (0.25 * w2) (1 * h2) (1.5 * d2) (-1) 0 0 0 0 (-1) 1 1,
   mkVertex (0 * w2) (0 * h2) (1 * d2) 1 0 0 0 0 1 0 1,
   mkVertex (0.5 * w2) (0.5 * h2) (2 * d2) 1 0 0 0 0 1 0 0,
   mkVertex (1 * w2) (0.5 * h2) (1.5 * d2) 1 0 0 0 0 1 1 0,
   mkVertex (0.25 * w2) (1 * h2) (1.5 * d2) 1 0 0 0 0 1 1 1,
   mkVertex (0.5 * w2) (1 * h2) (1.25 * d2) 0 0 1 (-1) 0 0 1 1,
   mkVertex (0 * w2) (0 * h2) (1 * d2) 0 1 0 1 0 0 1 0,
   mkVertex (-0.5 * w2) (0.5 * h2) (2 * d2) 0 1 0 1 0 0 1 1,
   mkVertex (-1 * w2) (0.5 * h2) (1.5 * d2) 0 (-1) 0 (-1) 0 0 1 1,
   mkVertex (-0.25 * w2) (1 * h2) (1.5 * d2) 0 0 1 (-1) 0 0 1 1,
   mkVertex (-0.5 * w2) (1 * h2) (1.25 * d2) 0 (-1) 0 (-1) 0 0 0 0,
   mkVertex (0 * w2) (0 * h2) (1 * d2) 0 1 0 1 0 0 1 0,
   mkVertex (1 * w2) (0.5 * h2) (0.5 * d2) 0 1 0 1 0 0 1 1,
   mkVertex (1 * w2) (0.5 * h2) (1.5 * d2) 0 (-1) 0 (-1) 0 0 1 1,
   mkVertex (0.50 * w2) (1 * h2) (0.75 * d2) 0 0 1 (-1) 0 0 1 1,
   mkVertex (0.5 * w2) (1 * h2) (1.25 * d2) 0 (-1) 0 (-1) 0 0 0 0,
   mkVertex (0 * w2) (0 * h2) (1 * d2) 0 1 0 1 0 0 1 0,
   mkVertex (-1 * w2) (0.5 * h2) (0.5 * d2) 0 1 0 1 0 0 1 1,
   mkVertex (-1 * w2) (0.5 * h2) (1.5 * d2) 0 (-1) 0 (-1) 0 0 1 1,
   mkVertex (-0.50 * w2) (1 * h2) (0.75 * d2) 0 0 1 (-1) 0 0 1 1,
   mkVertex (-0.5 * w2) (1 * h2) (1.25 * d2) 0 (-1) 0 (-1) 0 0 0 0]

/-- The 72 index values `CreateDiamond` actually assigns into
`uint32 i[90]` (GeometryGenerator.cpp lines 1998-2047): the "lid" block
(slots 72-89, lines 2049-2057) is commented out, so those slots keep their
indeterminate stack contents. -/
def diamondIndexTable : List Nat :=
  [0, 1, 2, 1, 3, 2, 3, 4, 2,
   5, 6, 7, 6, 8, 7, 8, 9, 7,
   10, 11, 12, 11, 13, 12, 13, 14, 12,
   16, 15, 17, 18, 16, 17, 19, 18, 17,
   21, 20, 22, 23, 21, 22, 24, 23, 22,
   25, 26, 27, 26, 28, 27, 28, 29, 27,
   30, 31, 32, 31, 33, 32, 33, 34, 32,
   36, 35, 37, 38, 36, 37, 39, 38, 37]

/-- Base mesh of `CreateDiamond`; `jI` is the indeterminate initial
contents of the local array `uint32 i[90]`, visible in the result at slots
72-89. -/
noncomputable def DiamondBase (width height depth : ℝ) (jI : Nat → Nat) : MeshData :=
  ⟨diamondVertexTable (0.5 * width) (0.5 * height) (0.5 * depth),
   arrToList 90 (writes jI (tableWrites 0 diamondIndexTable))⟩

/-- `GeometryGenerator::CreateDiamond` (GeometryGenerator.cpp lines
1899-2074).  The final loop (lines 2070-2073) has the `Subdivide` call
commented out, so its entire body is `return meshData;`: with a positive
clamped count the base mesh is returned on the first iteration, and with a
zero count control falls off the end of the non-void function, producing no
defined result (`none`). -/
noncomputable def CreateDiamond (width height depth : ℝ) (numSubdivisions : Nat)
    (jI : Nat → Nat) : Option MeshData :=
  if 0 < min numSubdivisions 6 then some (DiamondBase width height depth jI)
  else none

/-! END OF DEFINITIONS (further definitions are inserted above this line;
all theorems follow). -/

/-! Lemmas about array writes. -/

theorem writes_apply_of_not_mem {α : Type} (ws : List (Nat × α)) (k : Nat)
    (h : k ∉ ws.map Prod.fst) (f : Nat → α) : writes f ws k = f k := by
  induction ws generalizing f with
  | nil => rfl
  | cons p t ih =>
    simp only [List.map_cons, List.mem_cons] at h
    push_neg at h
    simp only [writes, List.foldl_cons]
    rw [show List.foldl upd (upd f p) t = writes (upd f p) t from rfl,
      ih h.2, upd, if_neg h.1]

theorem writes_congr_of_mem {α : Type} (ws : List (Nat × α)) (k : Nat)
    (h : k ∈ ws.map Prod.fst) (f g : Nat → α) : writes f ws k = writes g ws k := by
  induction ws generalizing f g with
  | nil => simp at h
  | cons p t ih =>
    simp only [writes, List.foldl_cons]
    by_cases hm : k ∈ t.map Prod.fst
    · exact ih hm (upd f p) (upd g p)
    · simp only [List.map_cons, List.mem_cons] at h
      rcases h with h | h
      · rw [show List.foldl upd (upd f p) t = writes (upd f p) t from rfl,
          show List.foldl upd (upd g p) t = writes (upd g p) t from rfl,
          writes_apply_of_not_mem t k hm, writes_apply_of_not_mem t k hm,
          upd, upd, if_pos h, if_pos h]
      · exact absurd h hm

theorem arrToList_length {α : Type} (n : Nat) (f : Nat → α) :
    (arrToList n f).length = n := by
  simp [arrToList]

theorem arrToList_getD {α : Type} (n : Nat) (f : Nat → α) (k : Nat) (d : α)
    (hk : k < n) : (arrToList n f).getD k d = f k := by
  simp [arrToList, List.getD_eq_getElem?_getD, List.getElem?_map,
    List.getElem?_range hk]

theorem tableWrites_map_fst {α : Type} (base : Nat) (tbl : List α) :
    (tableWrites base tbl).map Prod.fst = (List.range tbl.length).map (base + ·) := by
  simp only [tableWrites, List.map_map]
  have h : (Prod.fst ∘ fun p : Nat × α => (base + p.1, p.2))
      = (fun k => base + k) ∘ Prod.fst := rfl
  rw [h, ← List.map_map, List.enum_map_fst]


/-! Lemmas about flat-mapped blocks of constant length. -/

theorem length_flatMap_const {α β : Type} (f : α → List β) (c : Nat)
    (h : ∀ a, (f a).length = c) (l : List α) :
    (l.flatMap f).length = l.length * c := by
  induction l with
  | nil => simp
  | cons a t ih =>
    simp only [List.flatMap_cons, List.length_append, h a, ih, List.length_cons]
    ring

theorem drop_flatMap_range_const {β : Type} (f : Nat → List β) (c : Nat)
    (h : ∀ a, (f a).length = c) (T : Nat) :
    ∀ t, t ≤ T → ((List.range T).flatMap f).drop (c * t) = (List.range' t (T - t)).flatMap f := by
  intro t
  induction t with
  | zero =>
    intro _
    simp [List.range_eq_range']
  | succ t ih =>
    intro ht
    have ht' : t ≤ T := Nat.le_of_succ_le ht
    have hc : c * (t + 1) = c * t + c := by ring
    rw [hc, ← List.drop_drop, ih ht']
    have hTt : T - t = (T - (t + 1)) + 1 := by omega
    rw [hTt, List.range'_succ, List.flatMap_cons, ← h t, List.drop_left]

theorem flatMap_range_block {β : Type} (f : Nat → List β) (c : Nat)
    (h : ∀ a, (f a).length = c) (T t : Nat) (ht : t < T) :
    (((List.range T).flatMap f).drop (c * t)).take c = f t := by
  rw [drop_flatMap_range_const f c h T t ht.le]
  have hTt : T - t = (T - (t + 1)) + 1 := by omega
  rw [hTt, List.range'_succ, List.flatMap_cons, ← h t, List.take_left]

/-! Basic facts about `normSq`, `vlen` and `normalize`. -/

theorem normSq_nonneg (a : Vec3) : 0 ≤ normSq a := by
  unfold normSq; positivity

theorem normSq_eq_zero_iff (a : Vec3) : normSq a = 0 ↔ a = ⟨0, 0, 0⟩ := by
  constructor
  · intro h
    unfold normSq at h
    have hx : a.x ^ 2 = 0 := by
      nlinarith [sq_nonneg a.x, sq_nonneg a.y, sq_nonneg a.z]
    have hy : a.y ^ 2 = 0 := by
      nlinarith [sq_nonneg a.x, sq_nonneg a.y, sq_nonneg a.z]
    have hz : a.z ^ 2 = 0 := by
      nlinarith [sq_nonneg a.x, sq_nonneg a.y, sq_nonneg a.z]
    have hx0 := pow_eq_zero_iff (n := 2) (by norm_num) |>.mp hx
    have hy0 := pow_eq_zero_iff (n := 2) (by norm_num) |>.mp hy
    have hz0 := pow_eq_zero_iff (n := 2) (by norm_num) |>.mp hz
    cases a
    simp_all
  · intro h; subst h; simp [normSq]

theorem normSq_v3smul (c : ℝ) (a : Vec3) : normSq (v3smul c a) = c ^ 2 * normSq a := by
  unfold normSq v3smul
  ring

theorem vlen_nonneg (a : Vec3) : 0 ≤ vlen a := Real.sqrt_nonneg _

theorem vlen_v3smul (c : ℝ) (a : Vec3) : vlen (v3smul c a) = |c| * vlen a := by
  unfold vlen
  rw [normSq_v3smul, Real.sqrt_mul (sq_nonneg c), Real.sqrt_sq_eq_abs]

theorem vlen_pos_of_normSq_ne_zero {a : Vec3} (h : normSq a ≠ 0) : 0 < vlen a := by
  have h1 : 0 < normSq a := lt_of_le_of_ne (normSq_nonneg a) (Ne.symm h)
  exact Real.sqrt_pos.mpr h1

theorem vlen_normalize {a : Vec3} (h : normSq a ≠ 0) : vlen (normalize a) = 1 := by
  unfold normalize
  rw [if_neg h, vlen_v3smul]
  have hp : 0 < vlen a := vlen_pos_of_normSq_ne_zero h
  rw [abs_of_pos (by positivity)]
  field_simp

theorem normSq_normalize {a : Vec3} (h : normSq a ≠ 0) : normSq (normalize a) = 1 := by
  have h1 := vlen_normalize h
  unfold vlen at h1
  have h2 := congrArg (fun t => t ^ 2) h1
  simpa [Real.sq_sqrt (normSq_nonneg (normalize a))] using h2

theorem normalize_eq_self_of_unit {a : Vec3} (h : normSq a = 1) : normalize a = a := by
  unfold normalize
  rw [if_neg (by rw [h]; norm_num)]
  unfold vlen
  rw [h]
  simp [v3smul]

theorem normalize_v3smul_pos {c : ℝ} (hc : 0 < c) (a : Vec3) (h : normSq a ≠ 0) :
    normalize (v3smul c a) = normalize a := by
  unfold normalize
  have hcs : c ^ 2 * normSq a ≠ 0 := by
    exact mul_ne_zero (pow_ne_zero _ hc.ne') h
  rw [if_neg (by rw [normSq_v3smul]; exact hcs), if_neg h, vlen_v3smul,
    abs_of_pos hc]
  have hl : 0 < vlen a := vlen_pos_of_normSq_ne_zero h
  unfold v3smul
  have hc' : c ≠ 0 := hc.ne'
  have hl' : vlen a ≠ 0 := hl.ne'
  congr 1 <;> field_simp <;> ring

/-! Claim C2: the subdivision operator. -/

/-- C2: one call to `Subdivide` on a mesh with `3*T` indices replaces the
whole vertex and index arrays with exactly `6*T` vertices and `12*T`
indices (`4*T` triangles), where each source triangle `(v0,v1,v2)`
contributes the six vertices `v0,v1,v2,m0,m1,m2` (the `m`s being the
un-deduplicated `MidPoint`s of the three edges) and the four triangles
`(v0,m0,m2), (m0,m1,m2), (m2,m1,v2), (m0,v1,m1)` in the source winding. -/
theorem Subdivide_one_to_four (m : MeshData) (T : Nat)
    (hT : m.Indices32.length = 3 * T) :
    (Subdivide m).Vertices.length = 6 * T ∧
    (Subdivide m).Indices32.length = 12 * T ∧
    ∀ t, t < T →
      (((Subdivide m).Vertices.drop (6 * t)).take 6 =
        [triVert m (3 * t), triVert m (3 * t + 1), triVert m (3 * t + 2),
         MidPoint (triVert m (3 * t)) (triVert m (3 * t + 1)),
         MidPoint (triVert m (3 * t + 1)) (triVert m (3 * t + 2)),
         MidPoint (triVert m (3 * t)) (triVert m (3 * t + 2))]) ∧
      (((Subdivide m).Indices32.drop (12 * t)).take 12 =
        [6 * t, 6 * t + 3, 6 * t + 5,
         6 * t + 3, 6 * t + 4, 6 * t + 5,
         6 * t + 5, 6 * t + 4, 6 * t + 2,
         6 * t + 3, 6 * t + 1, 6 * t + 4]) := by
  have hTris : m.Indices32.length / 3 = T := by
    rw [hT]; omega
  have hv : ∀ i, (subdivVerts m i).length = 6 := by
    intro i; rfl
  have hi : ∀ i, (subdivIdx i).length = 12 := by
    intro i; rfl
  refine ⟨?_, ?_, ?_⟩
  · rw [show (Subdivide m).Vertices
        = (List.range (m.Indices32.length / 3)).flatMap (subdivVerts m) from rfl,
      length_flatMap_const _ 6 hv, List.length_range, hTris, Nat.mul_comm]
  · rw [show (Subdivide m).Indices32
        = (List.range (m.Indices32.length / 3)).flatMap subdivIdx from rfl,
      length_flatMap_const _ 12 hi, List.length_range, hTris, Nat.mul_comm]
  · intro t ht
    constructor
    · rw [show (Subdivide m).Vertices
          = (List.range (m.Indices32.length / 3)).flatMap (subdivVerts m) from rfl,
        hTris, flatMap_range_block _ 6 hv T t ht]
      simp [subdivVerts, Nat.mul_comm]
    · rw [show (Subdivide m).Indices32
          = (List.range (m.Indices32.length / 3)).flatMap subdivIdx from rfl,
        hTris, flatMap_range_block _ 12 hi T t ht]
      simp [subdivIdx, Nat.mul_comm]

/-- Witness for C2: `Subdivide` applied at a concrete one-triangle mesh. -/
theorem Subdivide_one_to_four_witness :
    ((MeshData.mk [mkVertex 0 0 0 0 0 1 1 0 0 0 0, mkVertex 2 0 0 0 0 1 1 0 0 1 0,
        mkVertex 0 2 0 0 0 1 1 0 0 0 1] [0, 1, 2]).Indices32.length = 3 * 1) ∧
    ((Subdivide (MeshData.mk [mkVertex 0 0 0 0 0 1 1 0 0 0 0,
        mkVertex 2 0 0 0 0 1 1 0 0 1 0,
        mkVertex 0 2 0 0 0 1 1 0 0 0 1] [0, 1, 2])).Vertices.length = 6 * 1) :=
  ⟨rfl, (Subdivide_one_to_four (MeshData.mk [mkVertex 0 0 0 0 0 1 1 0 0 0 0,
      mkVertex 2 0 0 0 0 1 1 0 0 1 0,
      mkVertex 0 2 0 0 0 1 1 0 0 0 1] [0, 1, 2]) 1 rfl).1⟩

/-! Claim C3: the midpoint interpolator. -/

/-- C3 counterexample: the claim "for any two vertices whose normals are
unit length, the returned vertex's normal has norm within floating-point
epsilon of 1.0" fails at two vertices with exactly opposite unit normals
`(0,0,1)` and `(0,0,-1)`: the averaged normal is the zero vector, which
`XMVector3Normalize` maps to the zero vector, so the returned normal has
norm `0`, not within any epsilon `< 1` of `1.0`. -/
theorem MidPoint_antipodal_normals_collapse :
    normSq (mkVertex 0 0 0 0 0 1 1 0 0 0 0).Normal = 1 ∧
    normSq (mkVertex 1 0 0 0 0 (-1) 1 0 0 1 1).Normal = 1 ∧
    (MidPoint (mkVertex 0 0 0 0 0 1 1 0 0 0 0)
        (mkVertex 1 0 0 0 0 (-1) 1 0 0 1 1)).Normal = ⟨0, 0, 0⟩ ∧
    vlen (MidPoint (mkVertex 0 0 0 0 0 1 1 0 0 0 0)
        (mkVertex 1 0 0 0 0 (-1) 1 0 0 1 1)).Normal = 0 := by
  have hz : (MidPoint (mkVertex 0 0 0 0 0 1 1 0 0 0 0)
      (mkVertex 1 0 0 0 0 (-1) 1 0 0 1 1)).Normal = ⟨0, 0, 0⟩ := by
    show normalize _ = _
    rw [show v3smul 0.5 (v3add (mkVertex 0 0 0 0 0 1 1 0 0 0 0).Normal
        (mkVertex 1 0 0 0 0 (-1) 1 0 0 1 1).Normal) = ⟨0, 0, 0⟩ by
      simp [mkVertex, v3add, v3smul]]
    rw [normalize, if_pos]
    simp [normSq]
  refine ⟨by simp [mkVertex, normSq], by simp [mkVertex, normSq], hz, ?_⟩
  rw [hz]
  simp [vlen, normSq]

/-- C3 (amended): `MidPoint` returns the componentwise mean of the two
positions and texture coordinates, and the renormalized mean of the
normals and tangents; for two unit normals the result normal has norm
exactly `1` (in the real-arithmetic model) provided the two normals are
not exact opposites (otherwise the mean is the zero vector and the
returned normal is the zero vector, see the counterexample). -/
theorem MidPoint_spec (v0 v1 : Vertex)
    (h0 : vlen v0.Normal = 1) (h1 : vlen v1.Normal = 1)
    (hs : v3add v0.Normal v1.Normal ≠ ⟨0, 0, 0⟩) :
    (MidPoint v0 v1).Position.x = (v0.Position.x + v1.Position.x) / 2 ∧
    (MidPoint v0 v1).Position.y = (v0.Position.y + v1.Position.y) / 2 ∧
    (MidPoint v0 v1).Position.z = (v0.Position.z + v1.Position.z) / 2 ∧
    (MidPoint v0 v1).TexC.x = (v0.TexC.x + v1.TexC.x) / 2 ∧
    (MidPoint v0 v1).TexC.y = (v0.TexC.y + v1.TexC.y) / 2 ∧
    (MidPoint v0 v1).Normal = normalize (v3smul 0.5 (v3add v0.Normal v1.Normal)) ∧
    (MidPoint v0 v1).TangentU = normalize (v3smul 0.5 (v3add v0.TangentU v1.TangentU)) ∧
    vlen (MidPoint v0 v1).Normal = 1 := by
  refine ⟨?_, ?_, ?_, ?_, ?_, rfl, rfl, ?_⟩
  · show (0.5 : ℝ) * (v0.Position.x + v1.Position.x) = _; ring
  · show (0.5 : ℝ) * (v0.Position.y + v1.Position.y) = _; ring
  · show (0.5 : ℝ) * (v0.Position.z + v1.Position.z) = _; ring
  · show (0.5 : ℝ) * (v0.TexC.x + v1.TexC.x) = _; ring
  · show (0.5 : ℝ) * (v0.TexC.y + v1.TexC.y) = _; ring
  · show vlen (normalize (v3smul 0.5 (v3add v0.Normal v1.Normal))) = 1
    apply vlen_normalize
    intro hzero
    apply hs
    have hv := (normSq_eq_zero_iff _).mp hzero
    have hx := congrArg Vec3.x hv
    have hy := congrArg Vec3.y hv
    have hz := congrArg Vec3.z hv
    simp only [v3smul] at hx hy hz
    cases hadd : v3add v0.Normal v1.Normal
    rw [hadd] at hx hy hz
    simp only at hx hy hz
    norm_num at hx hy hz
    simp [hx, hy, hz]

/-- Witness for C3 (amended): `MidPoint` applied at two concrete vertices
with equal unit normals `(0,0,1)`. -/
theorem MidPoint_spec_witness :
    (vlen (mkVertex 0 0 0 0 0 1 1 0 0 0 0).Normal = 1) ∧
    (vlen (mkVertex 2 2 2 0 0 1 0 1 0 1 1).Normal = 1) ∧
    (v3add (mkVertex 0 0 0 0 0 1 1 0 0 0 0).Normal
        (mkVertex 2 2 2 0 0 1 0 1 0 1 1).Normal ≠ ⟨0, 0, 0⟩) ∧
    (MidPoint (mkVertex 0 0 0 0 0 1 1 0 0 0 0)
        (mkVertex 2 2 2 0 0 1 0 1 0 1 1)).Position.x
      = ((mkVertex 0 0 0 0 0 1 1 0 0 0 0).Position.x
          + (mkVertex 2 2 2 0 0 1 0 1 0 1 1).Position.x) / 2 := by
  have h0 : vlen (mkVertex 0 0 0 0 0 1 1 0 0 0 0).Normal = 1 := by
    simp [mkVertex, vlen, normSq]
  have h1 : vlen (mkVertex 2 2 2 0 0 1 0 1 0 1 1).Normal = 1 := by
    simp [mkVertex, vlen, normSq]
  have hs : v3add (mkVertex 0 0 0 0 0 1 1 0 0 0 0).Normal
      (mkVertex 2 2 2 0 0 1 0 1 0 1 1).Normal ≠ ⟨0, 0, 0⟩ := by
    simp [mkVertex, v3add]
  exact ⟨h0, h1, hs, (MidPoint_spec _ _ h0 h1 hs).1⟩


/-! Claim C10: the control flow of `CreateDiamond`. -/

/-- C10: the `Subdivide` call in `CreateDiamond`'s final loop is commented
out, so for every `numSubdivisions ≥ 1` the function returns the base
(never-subdivided) mesh on the first loop iteration, and for
`numSubdivisions = 0` control reaches the end of the non-void function
without executing any `return`, so no defined result is produced. -/
theorem CreateDiamond_control_flow (width height depth : ℝ) (jI : Nat → Nat)
    (n : Nat) (hn : 1 ≤ n) :
    CreateDiamond width height depth n jI = some (DiamondBase width height depth jI) ∧
    CreateDiamond width height depth 0 jI = none := by
  constructor
  · have hpos : 0 < min n 6 := lt_min_iff.mpr ⟨hn, by norm_num⟩
    simp [CreateDiamond, hpos]
  · simp [CreateDiamond]

/-- Witness for C10 at concrete arguments. -/
theorem CreateDiamond_control_flow_witness :
    (1 ≤ 1) ∧
    (CreateDiamond 1 1 1 1 (fun _ => 0) = some (DiamondBase 1 1 1 (fun _ => 0)) ∧
     CreateDiamond 1 1 1 0 (fun _ => 0) = none) :=
  ⟨le_refl 1, CreateDiamond_control_flow 1 1 1 (fun _ => 0) 1 (le_refl 1)⟩

/-! Claim C4: clamping and the zero-subdivision no-op. -/

/-- C4 counterexample: the claim "for numSubdivisions = 0 the generator's
base mesh is returned unchanged" is false for `CreateDiamond`, one of the
generators it quantifies over: at `numSubdivisions = 0` control falls off
the end of the function and no mesh at all is returned. -/
theorem CreateDiamond_zero_returns_no_mesh :
    CreateDiamond 1 1 1 0 (fun _ => 0) = none ∧
    ∀ md : MeshData, CreateDiamond 1 1 1 0 (fun _ => 0) ≠ some md := by
  refine ⟨by simp [CreateDiamond], ?_⟩
  intro md h
  simp [CreateDiamond] at h

/-- C4 (amended): in every generator that takes a `numSubdivisions`
parameter the count is clamped to `[0, 6]`, so any argument `n ≥ 6`
produces the mesh obtained for `6`, and `numSubdivisions = 0` returns the
generator's base mesh unchanged — except `CreateDiamond`, which still
yields the same (never-subdivided) result for all `n ≥ 6` but produces no
defined result at `numSubdivisions = 0`. -/
theorem numSubdivisions_clamped (w h d r : ℝ) (n : Nat) (hn : 6 ≤ n)
    (jV jV2 : Nat → Vertex) (jI jI2 : Nat → Nat) :
    (CreateBar w h d n = CreateBar w h d 6 ∧ CreateBar w h d 0 = BarBase w h d) ∧
    (CreateBox w h d n = CreateBox w h d 6 ∧ CreateBox w h d 0 = BoxBase w h d) ∧
    (CreateChocolate w h d n jV jI = CreateChocolate w h d 6 jV jI ∧
     CreateChocolate w h d 0 jV jI = ChocolateBase w h d jV jI) ∧
    (CreateBar2 w h d n = CreateBar2 w h d 6 ∧ CreateBar2 w h d 0 = Bar2Base w h d) ∧
    (CreateCandy w h d n = CreateCandy w h d 6 ∧ CreateCandy w h d 0 = CandyBase w h d) ∧
    (CreateGeosphere r n jV2 = CreateGeosphere r 6 jV2 ∧
     CreateGeosphere r 0 jV2 =
       ⟨(GeosphereBase jV2).Vertices.map (geosphereProject r),
        (GeosphereBase jV2).Indices32⟩) ∧
    (CreateTetrahedron w h d n = CreateTetrahedron w h d 6 ∧
     CreateTetrahedron w h d 0 = TetrahedronBase w h d) ∧
    (CreatePyramid w h d n = CreatePyramid w h d 6 ∧
     CreatePyramid w h d 0 = PyramidBase w h d) ∧
    (CreateWedge w h d n = CreateWedge w h d 6 ∧
     CreateWedge w h d 0 = WedgeBase w h d) ∧
    (CreateHexagon w h d n jV = CreateHexagon w h d 6 jV ∧
     CreateHexagon w h d 0 jV = HexagonBase w h d jV) ∧
    (CreateDiamond w h d n jI2 = CreateDiamond w h d 6 jI2) := by
  have h6 : min n 6 = 6 := Nat.min_eq_right hn
  refine ⟨⟨?_, ?_⟩, ⟨?_, ?_⟩, ⟨rfl, rfl⟩, ⟨?_, ?_⟩, ⟨?_, ?_⟩, ⟨?_, ?_⟩,
    ⟨?_, ?_⟩, ⟨?_, ?_⟩, ⟨?_, ?_⟩, ⟨?_, ?_⟩, ?_⟩
  · rw [CreateBar, CreateBar, h6, Nat.min_self]
  · rfl
  · rw [CreateBox, CreateBox, h6, Nat.min_self]
  · rfl
  · rw [CreateBar2, CreateBar2, h6, Nat.min_self]
  · rfl
  · rw [CreateCandy, CreateCandy, h6, Nat.min_self]
  · rfl
  · rw [CreateGeosphere, CreateGeosphere, h6, Nat.min_self]
  · rfl
  · rw [CreateTetrahedron, CreateTetrahedron, h6, Nat.min_self]
  · rfl
  · rw [CreatePyramid, CreatePyramid, h6, Nat.min_self]
  · rfl
  · rw [CreateWedge, CreateWedge, h6, Nat.min_self]
  · rfl
  · rw [CreateHexagon, CreateHexagon, h6, Nat.min_self]
  · rfl
  · rw [CreateDiamond, CreateDiamond, h6, Nat.min_self]

/-- Witness for C4 (amended) at `n = 7` and concrete extents. -/
theorem numSubdivisions_clamped_witness :
    (6 ≤ 7) ∧
    (CreateBar 1 1 1 7 = CreateBar 1 1 1 6 ∧ CreateBar 1 1 1 0 = BarBase 1 1 1) :=
  ⟨by norm_num,
   (numSubdivisions_clamped 1 1 1 1 7 (by norm_num)
     (fun _ => vzero) (fun _ => vzero) (fun _ => 0) (fun _ => 0)).1⟩

/-! Claim C1: the index-bounds invariant. -/

/-- C1 is violated by the code: `CreateChocolate` assigns only slots 0-35
and 360-395 of its 396-entry index array, so slots 36-359 are read from
uninitialized stack memory.  With initial stack contents holding the value
264 at those slots, the produced mesh has an index equal to its vertex
count 264, refuting "every index value is strictly less than
`Vertices.size()`" (`Indices32.size() % 3 == 0` itself still holds:
396 = 3 * 132). -/
theorem chocolate_index_out_of_bounds :
    (CreateChocolate 1 1 1 0 (fun _ => vzero) (fun _ => 264)).Indices32.length % 3 = 0 ∧
    (CreateChocolate 1 1 1 0 (fun _ => vzero) (fun _ => 264)).Vertices.length = 264 ∧
    ¬ ∀ k ∈ (CreateChocolate 1 1 1 0 (fun _ => vzero) (fun _ => 264)).Indices32,
        k < (CreateChocolate 1 1 1 0 (fun _ => vzero) (fun _ => 264)).Vertices.length := by
  have hvlen : (CreateChocolate 1 1 1 0 (fun _ => vzero) (fun _ => 264)).Vertices.length
      = 264 := by
    show (arrToList 264 _).length = 264
    exact arrToList_length _ _
  have hilen : (CreateChocolate 1 1 1 0 (fun _ => vzero) (fun _ => 264)).Indices32.length
      = 396 := by
    show (arrToList 396 _).length = 396
    exact arrToList_length _ _
  refine ⟨by rw [hilen], hvlen, ?_⟩
  intro hall
  have hnot : (36 : Nat) ∉ chocolateIndexWrites.map Prod.fst := by
    rw [chocolateIndexWrites, List.map_append, tableWrites_map_fst, tableWrites_map_fst]
    have hlen : cubeIndexTable.length = 36 := rfl
    rw [hlen]
    simp only [List.mem_append, List.mem_map, List.mem_range]
    rintro (⟨a, ha, hq⟩ | ⟨a, ha, hq⟩) <;> omega
  have hval : writes (fun _ => 264) chocolateIndexWrites 36 = 264 :=
    writes_apply_of_not_mem _ _ hnot _
  have hmem : (264 : Nat) ∈ (CreateChocolate 1 1 1 0 (fun _ => vzero)
      (fun _ => 264)).Indices32 := by
    show (264 : Nat) ∈ arrToList 396 (writes (fun _ => 264) chocolateIndexWrites)
    rw [arrToList]
    exact List.mem_map.mpr ⟨36, List.mem_range.mpr (by norm_num), hval⟩
  have := hall 264 hmem
  rw [hvlen] at this
  omega

/-! Claim C9: determinism of the generators. -/

/-- C9 is violated by the code: `CreateHexagon` assigns only 14 of the 24
entries of its local `Vertex v[24]` array but copies all 24 into the mesh,
so the returned vertices 14-23 are whatever happened to be on the stack.
Two calls observing different stack contents (here differing at slot 14)
return different meshes for identical parameters. -/
theorem hexagon_output_depends_on_stack :
    CreateHexagon 1 1 1 0 (fun _ => vzero)
      ≠ CreateHexagon 1 1 1 0 (fun _ => mkVertex 1 0 0 0 0 0 0 0 0 0 0) := by
  have huncov : ∀ jV : Nat → Vertex,
      (CreateHexagon 1 1 1 0 jV).Vertices.getD 14 vzero = jV 14 := by
    intro jV
    show (HexagonBase 1 1 1 jV).Vertices.getD 14 vzero = jV 14
    show (arrToList 24 (writes jV (tableWrites 0
        (hexagonVertexTable (0.5 * 1) (0.5 * 1) (0.5 * 1))))).getD 14 vzero = jV 14
    rw [arrToList_getD 24 _ 14 _ (by norm_num)]
    apply writes_apply_of_not_mem
    rw [tableWrites_map_fst]
    have hlen : (hexagonVertexTable (0.5 * 1) (0.5 * 1) (0.5 * 1)).length = 14 := rfl
    rw [hlen]
    simp only [List.mem_map, List.mem_range]
    rintro ⟨a, ha, hq⟩
    omega
  intro h
  have h14 := congrArg (fun md => (md.Vertices.getD 14 vzero).Position.x) h
  simp only [huncov (fun _ => vzero),
    huncov (fun _ => mkVertex 1 0 0 0 0 0 0 0 0 0 0)] at h14
  have : (0 : ℝ) = 1 := h14
  norm_num at this


/-! Claim C5: the sphere generator. -/

/-- Squared length of a spherical-to-cartesian position. -/
theorem sphere_pos_normSq (r phi theta : ℝ) :
    normSq ⟨r * Real.sin phi * Real.cos theta, r * Real.cos phi,
            r * Real.sin phi * Real.sin theta⟩ = r ^ 2 := by
  simp only [normSq]
  linear_combination (r ^ 2 * Real.sin phi ^ 2) * Real.sin_sq_add_cos_sq theta
    + r ^ 2 * Real.sin_sq_add_cos_sq phi

/-- Normalizing a positive multiple of the `+y` axis. -/
theorem normalize_pos_y (r : ℝ) (hr : 0 < r) : normalize ⟨0, r, 0⟩ = ⟨0, 1, 0⟩ := by
  have hnq : normSq ⟨0, r, 0⟩ = r ^ 2 := by simp [normSq]
  unfold normalize
  rw [if_neg (by rw [hnq]; exact pow_ne_zero 2 hr.ne')]
  unfold vlen
  rw [hnq, Real.sqrt_sq hr.le]
  have hinv : r⁻¹ * r = 1 := inv_mul_cancel₀ hr.ne'
  simp [v3smul, hinv]

/-- Normalizing a negative multiple of the `+y` axis. -/
theorem normalize_neg_y (r : ℝ) (hr : 0 < r) : normalize ⟨0, -r, 0⟩ = ⟨0, -1, 0⟩ := by
  have hnq : normSq ⟨0, -r, 0⟩ = r ^ 2 := by simp [normSq]
  unfold normalize
  rw [if_neg (by rw [hnq]; exact pow_ne_zero 2 hr.ne')]
  unfold vlen
  rw [hnq, Real.sqrt_sq hr.le]
  have hinv : r⁻¹ * r = 1 := inv_mul_cancel₀ hr.ne'
  simp [v3smul, hinv]

/-- C5: `CreateSphere` produces one vertex per pole plus `stackCount - 1`
rings of `sliceCount + 1` vertices, every vertex position has magnitude
equal to the radius, and every normal equals the normalized position. -/
theorem CreateSphere_spec (radius : ℝ) (sliceCount stackCount : Nat)
    (hr : 0 < radius) (hsl : 1 ≤ sliceCount) (hst : 2 ≤ stackCount) :
    (CreateSphere radius sliceCount stackCount).Vertices.length
      = 2 + (stackCount - 1) * (sliceCount + 1) ∧
    ∀ v ∈ (CreateSphere radius sliceCount stackCount).Vertices,
      vlen v.Position = radius ∧ v.Normal = normalize v.Position := by
  constructor
  · show (_ :: ((List.range (stackCount - 1)).flatMap _ ++ [_])).length = _
    rw [List.length_cons, List.length_append,
      length_flatMap_const _ (sliceCount + 1) (by intro a; simp),
      List.length_range, List.length_singleton]
    omega
  · intro v hv
    have hv' : v = mkVertex 0 radius 0 0 1 0 1 0 0 0 0 ∨
        (∃ i j, v = sphereRingVertex radius sliceCount stackCount (i + 1) j) ∨
        v = mkVertex 0 (-radius) 0 0 (-1) 0 1 0 0 0 1 := by
      have hm : v ∈ (mkVertex 0 radius 0 0 1 0 1 0 0 0 0) ::
          ((List.range (stackCount - 1)).flatMap (fun i =>
            (List.range (sliceCount + 1)).map (fun j =>
              sphereRingVertex radius sliceCount stackCount (i + 1) j)) ++
           [mkVertex 0 (-radius) 0 0 (-1) 0 1 0 0 0 1]) := hv
      rcases List.mem_cons.mp hm with h | h
      · exact Or.inl h
      · rcases List.mem_append.mp h with h | h
        · rcases List.mem_flatMap.mp h with ⟨i, _, hmap⟩
          rcases List.mem_map.mp hmap with ⟨j, _, rfl⟩
          exact Or.inr (Or.inl ⟨i, j, rfl⟩)
        · exact Or.inr (Or.inr (List.mem_singleton.mp h))
    rcases hv' with rfl | ⟨i, j, rfl⟩ | rfl
    · constructor
      · show vlen ⟨0, radius, 0⟩ = radius
        unfold vlen
        rw [show normSq ⟨0, radius, 0⟩ = radius ^ 2 by simp [normSq],
          Real.sqrt_sq hr.le]
      · show (⟨0, 1, 0⟩ : Vec3) = normalize ⟨0, radius, 0⟩
        rw [normalize_pos_y radius hr]
    · constructor
      · show vlen (sphereRingVertex radius sliceCount stackCount (i + 1) j).Position
            = radius
        unfold sphereRingVertex vlen
        rw [sphere_pos_normSq, Real.sqrt_sq hr.le]
      · rfl
    · constructor
      · show vlen ⟨0, -radius, 0⟩ = radius
        unfold vlen
        rw [show normSq ⟨0, -radius, 0⟩ = radius ^ 2 by simp [normSq],
          Real.sqrt_sq hr.le]
      · show (⟨0, -1, 0⟩ : Vec3) = normalize ⟨0, -radius, 0⟩
        rw [normalize_neg_y radius hr]

/-- Witness for C5 at the claim's `radius = 1, sliceCount = stackCount = 20`:
in particular the vertex count is `2 + 19 * 21 = 401`. -/
theorem CreateSphere_spec_witness :
    ((0 : ℝ) < 1) ∧ (1 ≤ 20) ∧ (2 ≤ 20) ∧
    ((CreateSphere 1 20 20).Vertices.length = 2 + (20 - 1) * (20 + 1) ∧
     ∀ v ∈ (CreateSphere 1 20 20).Vertices,
       vlen v.Position = 1 ∧ v.Normal = normalize v.Position) :=
  ⟨by norm_num, by norm_num, by norm_num,
   CreateSphere_spec 1 20 20 (by norm_num) (by norm_num) (by norm_num)⟩


/-! Claim C6: the geosphere generator at zero subdivisions. -/

/-- Properties of the geosphere projection step: projecting a vertex whose
position is nonzero yields a position of magnitude `radius` and a normal
equal to the unit-length normalized position. -/
theorem geosphereProject_props (r : ℝ) (hr : 0 < r) (v : Vertex)
    (hv : normSq v.Position ≠ 0) :
    vlen (geosphereProject r v).Position = r ∧
    (geosphereProject r v).Normal = normalize (geosphereProject r v).Position ∧
    vlen (geosphereProject r v).Normal = 1 := by
  have hunit : normSq (normalize v.Position) = 1 := normSq_normalize hv
  have hP : (geosphereProject r v).Position = v3smul r (normalize v.Position) := rfl
  have hN : (geosphereProject r v).Normal = normalize v.Position := rfl
  refine ⟨?_, ?_, ?_⟩
  · rw [hP, vlen_v3smul, vlen_normalize hv, abs_of_pos hr, mul_one]
  · rw [hP, hN, normalize_v3smul_pos hr (normalize v.Position)
        (by rw [hunit]; norm_num), normalize_eq_self_of_unit hunit]
  · rw [hN, vlen_normalize hv]

/-- C6: at `numSubdivisions = 0`, `CreateGeosphere` returns exactly the 12
icosahedron vertices and 60 indices (20 triangles); after the projection
step every vertex position has magnitude equal to the requested radius,
and every normal is the unit-length normalized projected position. -/
theorem CreateGeosphere_spec (radius : ℝ) (hr : 0 < radius) (jV : Nat → Vertex) :
    (CreateGeosphere radius 0 jV).Vertices.length = 12 ∧
    (CreateGeosphere radius 0 jV).Indices32.length = 60 ∧
    ∀ v ∈ (CreateGeosphere radius 0 jV).Vertices,
      vlen v.Position = radius ∧ v.Normal = normalize v.Position ∧
      vlen v.Normal = 1 := by
  have hpos : ∀ k, k < 12 → normSq (icosahedronPos.getD k ⟨0, 0, 0⟩) ≠ 0 := by
    intro k hk
    interval_cases k <;>
      norm_num [icosahedronPos, normSq, List.getD_cons_zero, List.getD_cons_succ]
  refine ⟨?_, rfl, ?_⟩
  · show ((GeosphereBase jV).Vertices.map (geosphereProject radius)).length = 12
    rw [List.length_map]
    show ((List.range 12).map _).length = 12
    rw [List.length_map, List.length_range]
  · intro v hv
    have hv2 : v ∈ (GeosphereBase jV).Vertices.map (geosphereProject radius) := hv
    obtain ⟨u, hu, rfl⟩ := List.mem_map.mp hv2
    have hu2 : u ∈ (List.range 12).map (fun k =>
        { jV k with Position := icosahedronPos.getD k ⟨0, 0, 0⟩ }) := hu
    obtain ⟨k, hk, rfl⟩ := List.mem_map.mp hu2
    have hk12 : k < 12 := List.mem_range.mp hk
    have hnz : normSq ({ jV k with
        Position := icosahedronPos.getD k ⟨0, 0, 0⟩ } : Vertex).Position ≠ 0 :=
      hpos k hk12
    exact geosphereProject_props radius hr _ hnz

/-- Witness for C6 at `radius = 2`. -/
theorem CreateGeosphere_spec_witness :
    ((0 : ℝ) < 2) ∧
    ((CreateGeosphere 2 0 (fun _ => vzero)).Vertices.length = 12 ∧
     (CreateGeosphere 2 0 (fun _ => vzero)).Indices32.length = 60 ∧
     ∀ v ∈ (CreateGeosphere 2 0 (fun _ => vzero)).Vertices,
       vlen v.Position = 2 ∧ v.Normal = normalize v.Position ∧
       vlen v.Normal = 1) :=
  ⟨by norm_num, CreateGeosphere_spec 2 (by norm_num) (fun _ => vzero)⟩


/-! Claim C7: the cylinder cap builders and the cone. -/

/-- C7: each cap builder appends exactly `sliceCount+1` ring vertices (with
cap-facing normal `(0,+1,0)` on top, `(0,-1,0)` on the bottom, at
`y = ±height/2`, with planar UV scaled by the height) plus one center
vertex, and then `sliceCount` fan triangles joining the center to
consecutive ring vertices; the top fan winds `(center, base+i+1, base+i)`
while the bottom fan winds the mirror `(center, base+i, base+i+1)`.
`CreateCone` builds the side plus the bottom cap only: its totals show a
single cap's worth of vertices and indices, so the top cap is omitted. -/
theorem cap_builders_spec (bottomRadius topRadius height : ℝ)
    (sliceCount stackCount : Nat) (md : MeshData) (hs : 1 ≤ sliceCount) :
    ((BuildCylinderTopCap bottomRadius topRadius height sliceCount stackCount md).Vertices.length
       = md.Vertices.length + (sliceCount + 2)) ∧
    ((BuildCylinderTopCap bottomRadius topRadius height sliceCount stackCount md).Indices32.length
       = md.Indices32.length + 3 * sliceCount) ∧
    (∀ k, k < sliceCount + 1 →
      ((BuildCylinderTopCap bottomRadius topRadius height sliceCount stackCount md).Vertices.getD
          (md.Vertices.length + k) vzero).Normal = ⟨0, 1, 0⟩ ∧
      ((BuildCylinderTopCap bottomRadius topRadius height sliceCount stackCount md).Vertices.getD
          (md.Vertices.length + k) vzero).Position.y = 0.5 * height ∧
      ((BuildCylinderTopCap bottomRadius topRadius height sliceCount stackCount md).Vertices.getD
          (md.Vertices.length + k) vzero).TexC.x =
        ((BuildCylinderTopCap bottomRadius topRadius height sliceCount stackCount md).Vertices.getD
          (md.Vertices.length + k) vzero).Position.x / height + 0.5 ∧
      ((BuildCylinderTopCap bottomRadius topRadius height sliceCount stackCount md).Vertices.getD
          (md.Vertices.length + k) vzero).TexC.y =
        ((BuildCylinderTopCap bottomRadius topRadius height sliceCount stackCount md).Vertices.getD
          (md.Vertices.length + k) vzero).Position.z / height + 0.5) ∧
    ((BuildCylinderTopCap bottomRadius topRadius height sliceCount stackCount md).Vertices.getD
        (md.Vertices.length + sliceCount + 1) vzero
      = mkVertex 0 (0.5 * height) 0 0 1 0 1 0 0 0.5 0.5) ∧
    (∀ i, i < sliceCount →
      (((BuildCylinderTopCap bottomRadius topRadius height sliceCount stackCount md).Indices32.drop
          (md.Indices32.length + 3 * i)).take 3
        = [md.Vertices.length + sliceCount + 1, md.Vertices.length + i + 1,
           md.Vertices.length + i])) ∧
    ((BuildCylinderBottomCap bottomRadius topRadius height sliceCount stackCount md).Vertices.length
       = md.Vertices.length + (sliceCount + 2)) ∧
    ((BuildCylinderBottomCap bottomRadius topRadius height sliceCount stackCount md).Indices32.length
       = md.Indices32.length + 3 * sliceCount) ∧
    (∀ k, k < sliceCount + 1 →
      ((BuildCylinderBottomCap bottomRadius topRadius height sliceCount stackCount md).Vertices.getD
          (md.Vertices.length + k) vzero).Normal = ⟨0, -1, 0⟩ ∧
      ((BuildCylinderBottomCap bottomRadius topRadius height sliceCount stackCount md).Vertices.getD
          (md.Vertices.length + k) vzero).Position.y = -0.5 * height ∧
      ((BuildCylinderBottomCap bottomRadius topRadius height sliceCount stackCount md).Vertices.getD
          (md.Vertices.length + k) vzero).TexC.x =
        ((BuildCylinderBottomCap bottomRadius topRadius height sliceCount stackCount md).Vertices.getD
          (md.Vertices.length + k) vzero).Position.x / height + 0.5 ∧
      ((BuildCylinderBottomCap bottomRadius topRadius height sliceCount stackCount md).Vertices.getD
          (md.Vertices.length + k) vzero).TexC.y =
        ((BuildCylinderBottomCap bottomRadius topRadius height sliceCount stackCount md).Vertices.getD
          (md.Vertices.length + k) vzero).Position.z / height + 0.5) ∧
    (∀ i, i < sliceCount →
      (((BuildCylinderBottomCap bottomRadius topRadius height sliceCount stackCount md).Indices32.drop
          (md.Indices32.length + 3 * i)).take 3
        = [md.Vertices.length + sliceCount + 1, md.Vertices.length + i,
           md.Vertices.length + i + 1])) ∧
    ((CreateCone bottomRadius height sliceCount stackCount).Vertices.length
       = (stackCount + 1) * (sliceCount + 1) + (sliceCount + 2)) ∧
    ((CreateCone bottomRadius height sliceCount stackCount).Indices32.length
       = 6 * stackCount * sliceCount + 3 * sliceCount) := by
  -- generic facts about the two cap builders, for an arbitrary input mesh
  have hTopV : ∀ m : MeshData,
      (BuildCylinderTopCap bottomRadius topRadius height sliceCount stackCount m).Vertices
        = m.Vertices ++
          ((List.range (sliceCount + 1)).map (topCapRingVertex topRadius height sliceCount) ++
           [mkVertex 0 (0.5 * height) 0 0 1 0 1 0 0 0.5 0.5]) := by
    intro m
    show (m.Vertices ++
        (List.range (sliceCount + 1)).map (topCapRingVertex topRadius height sliceCount)) ++
      [mkVertex 0 (0.5 * height) 0 0 1 0 1 0 0 0.5 0.5] = _
    rw [List.append_assoc]
  have hBotV : ∀ (tr : ℝ) (m : MeshData),
      (BuildCylinderBottomCap bottomRadius tr height sliceCount stackCount m).Vertices
        = m.Vertices ++
          ((List.range (sliceCount + 1)).map (bottomCapRingVertex bottomRadius height sliceCount) ++
           [mkVertex 0 (-0.5 * height) 0 0 (-1) 0 1 0 0 0.5 0.5]) := by
    intro tr m
    show (m.Vertices ++
        (List.range (sliceCount + 1)).map (bottomCapRingVertex bottomRadius height sliceCount)) ++
      [mkVertex 0 (-0.5 * height) 0 0 (-1) 0 1 0 0 0.5 0.5] = _
    rw [List.append_assoc]
  have hTopVlen : ∀ m : MeshData,
      (BuildCylinderTopCap bottomRadius topRadius height sliceCount stackCount m).Vertices.length
        = m.Vertices.length + (sliceCount + 2) := by
    intro m
    rw [hTopV m]
    simp only [List.length_append, List.length_map, List.length_range,
      List.length_singleton]
  have hBotVlen : ∀ (tr : ℝ) (m : MeshData),
      (BuildCylinderBottomCap bottomRadius tr height sliceCount stackCount m).Vertices.length
        = m.Vertices.length + (sliceCount + 2) := by
    intro tr m
    rw [hBotV tr m]
    simp only [List.length_append, List.length_map, List.length_range,
      List.length_singleton]
  have hTopI : ∀ m : MeshData,
      (BuildCylinderTopCap bottomRadius topRadius height sliceCount stackCount m).Indices32
        = m.Indices32 ++ (List.range sliceCount).flatMap (fun i =>
            [(BuildCylinderTopCap bottomRadius topRadius height sliceCount stackCount m).Vertices.length - 1,
             m.Vertices.length + i + 1, m.Vertices.length + i]) := fun _ => rfl
  have hBotI : ∀ (tr : ℝ) (m : MeshData),
      (BuildCylinderBottomCap bottomRadius tr height sliceCount stackCount m).Indices32
        = m.Indices32 ++ (List.range sliceCount).flatMap (fun i =>
            [(BuildCylinderBottomCap bottomRadius tr height sliceCount stackCount m).Vertices.length - 1,
             m.Vertices.length + i, m.Vertices.length + i + 1]) := fun _ _ => rfl
  have hTopIlen : ∀ m : MeshData,
      (BuildCylinderTopCap bottomRadius topRadius height sliceCount stackCount m).Indices32.length
        = m.Indices32.length + 3 * sliceCount := by
    intro m
    rw [hTopI m, List.length_append,
      length_flatMap_const _ 3 (by intro a; rfl), List.length_range, Nat.mul_comm]
  have hBotIlen : ∀ (tr : ℝ) (m : MeshData),
      (BuildCylinderBottomCap bottomRadius tr height sliceCount stackCount m).Indices32.length
        = m.Indices32.length + 3 * sliceCount := by
    intro tr m
    rw [hBotI tr m, List.length_append,
      length_flatMap_const _ 3 (by intro a; rfl), List.length_range, Nat.mul_comm]
  have hTopC : ∀ m : MeshData,
      (BuildCylinderTopCap bottomRadius topRadius height sliceCount stackCount m).Vertices.length - 1
        = m.Vertices.length + sliceCount + 1 := by
    intro m; rw [hTopVlen m]; omega
  have hBotC : ∀ (tr : ℝ) (m : MeshData),
      (BuildCylinderBottomCap bottomRadius tr height sliceCount stackCount m).Vertices.length - 1
        = m.Vertices.length + sliceCount + 1 := by
    intro tr m; rw [hBotVlen tr m]; omega
  refine ⟨hTopVlen md, hTopIlen md, ?_, ?_, ?_, hBotVlen topRadius md,
    hBotIlen topRadius md, ?_, ?_, ?_, ?_⟩
  · -- top ring vertices
    intro k hk
    have hget : (BuildCylinderTopCap bottomRadius topRadius height sliceCount stackCount
        md).Vertices.getD (md.Vertices.length + k) vzero
          = topCapRingVertex topRadius height sliceCount k := by
      rw [hTopV md,
        List.getD_append_right _ _ vzero _ (Nat.le_add_right _ _),
        Nat.add_sub_cancel_left,
        List.getD_append _ _ vzero k (by simpa using hk)]
      exact arrToList_getD (sliceCount + 1) _ k vzero hk
    rw [hget]
    exact ⟨rfl, rfl, rfl, rfl⟩
  · -- top center vertex
    rw [hTopV md, show md.Vertices.length + sliceCount + 1
        = md.Vertices.length + (sliceCount + 1) by omega,
      List.getD_append_right _ _ vzero _ (Nat.le_add_right _ _),
      Nat.add_sub_cancel_left,
      List.getD_append_right _ _ vzero _ (by simp)]
    simp
  · -- top fan triangles
    intro i hi
    rw [hTopI md]
    simp only [hTopC md]
    rw [← List.drop_drop, List.drop_left]
    exact flatMap_range_block _ 3 (by intro a; rfl) sliceCount i hi
  · -- bottom ring vertices
    intro k hk
    have hget : (BuildCylinderBottomCap bottomRadius topRadius height sliceCount stackCount
        md).Vertices.getD (md.Vertices.length + k) vzero
          = bottomCapRingVertex bottomRadius height sliceCount k := by
      rw [hBotV topRadius md,
        List.getD_append_right _ _ vzero _ (Nat.le_add_right _ _),
        Nat.add_sub_cancel_left,
        List.getD_append _ _ vzero k (by simpa using hk)]
      exact arrToList_getD (sliceCount + 1) _ k vzero hk
    rw [hget]
    exact ⟨rfl, rfl, rfl, rfl⟩
  · -- bottom fan triangles
    intro i hi
    rw [hBotI topRadius md]
    simp only [hBotC topRadius md]
    rw [← List.drop_drop, List.drop_left]
    exact flatMap_range_block _ 3 (by intro a; rfl) sliceCount i hi
  · -- cone vertex total: side plus one cap only
    have hside : (cylinderSide bottomRadius 0 height sliceCount stackCount).Vertices.length
        = (stackCount + 1) * (sliceCount + 1) := by
      show ((List.range (stackCount + 1)).flatMap _).length = _
      rw [length_flatMap_const _ (sliceCount + 1) (by intro a; simp),
        List.length_range]
    rw [show CreateCone bottomRadius height sliceCount stackCount
        = BuildCylinderBottomCap bottomRadius 0 height sliceCount stackCount
            (cylinderSide bottomRadius 0 height sliceCount stackCount) from rfl,
      hBotVlen 0 _, hside]
  · -- cone index total: side quads plus one fan only
    have hside : (cylinderSide bottomRadius 0 height sliceCount stackCount).Indices32.length
        = 6 * stackCount * sliceCount := by
      show ((List.range stackCount).flatMap _).length = _
      rw [length_flatMap_const _ (6 * sliceCount) ?_, List.length_range]
      · ring
      · intro a
        rw [length_flatMap_const _ 6 (by intro b; rfl), List.length_range, Nat.mul_comm]
    rw [show CreateCone bottomRadius height sliceCount stackCount
        = BuildCylinderBottomCap bottomRadius 0 height sliceCount stackCount
            (cylinderSide bottomRadius 0 height sliceCount stackCount) from rfl,
      hBotIlen 0 _, hside]

/-- Witness for C7 at a unit cylinder tessellation and the empty mesh. -/
theorem cap_builders_spec_witness :
    (1 ≤ 2) ∧
    ((BuildCylinderTopCap 1 1 1 2 1 (MeshData.mk [] [])).Vertices.length
       = (MeshData.mk [] []).Vertices.length + (2 + 2)) :=
  ⟨by norm_num, (cap_builders_spec 1 1 1 2 1 (MeshData.mk [] []) (by norm_num)).1⟩


/-! Claim C8: the plain box and the inset-top box variant. -/

/-- C8: `CreateBar(1,1,1,0)` (the plain box) has exactly 24 vertices and 36
indices with every position inside `[-1/2, 1/2]^3`; `CreateBox(1,1,1,0)`
(the distinct inset-top variant) has the same counts, and its four top-face
vertices (slots 8-11) sit at `±0.45` on the two inset lateral axes. -/
theorem box_family_spec :
    (CreateBar 1 1 1 0).Vertices.length = 24 ∧
    (CreateBar 1 1 1 0).Indices32.length = 36 ∧
    (∀ v ∈ (CreateBar 1 1 1 0).Vertices,
      |v.Position.x| ≤ 1 / 2 ∧ |v.Position.y| ≤ 1 / 2 ∧ |v.Position.z| ≤ 1 / 2) ∧
    (CreateBox 1 1 1 0).Vertices.length = 24 ∧
    (CreateBox 1 1 1 0).Indices32.length = 36 ∧
    (((CreateBox 1 1 1 0).Vertices.getD 8 vzero).Position.x = -0.45 ∧
     ((CreateBox 1 1 1 0).Vertices.getD 8 vzero).Position.z = -0.45) ∧
    (((CreateBox 1 1 1 0).Vertices.getD 9 vzero).Position.x = -0.45 ∧
     ((CreateBox 1 1 1 0).Vertices.getD 9 vzero).Position.z = 0.45) ∧
    (((CreateBox 1 1 1 0).Vertices.getD 10 vzero).Position.x = 0.45 ∧
     ((CreateBox 1 1 1 0).Vertices.getD 10 vzero).Position.z = 0.45) ∧
    (((CreateBox 1 1 1 0).Vertices.getD 11 vzero).Position.x = 0.45 ∧
     ((CreateBox 1 1 1 0).Vertices.getD 11 vzero).Position.z = -0.45) := by
  refine ⟨?_, ?_, ?_, ?_, ?_, ?_, ?_, ?_, ?_⟩
  · show (barVertexTable (0.5 * 1) (0.5 * 1) (0.5 * 1)).length = 24
    rfl
  · show cubeIndexTable.length = 36
    rfl
  · intro v hv
    have hm : v ∈ barVertexTable (0.5 * 1) (0.5 * 1) (0.5 * 1) := hv
    simp only [barVertexTable, List.mem_cons, List.not_mem_nil, or_false] at hm
    rcases hm with rfl | rfl | rfl | rfl | rfl | rfl | rfl | rfl | rfl | rfl | rfl | rfl | rfl | rfl | rfl | rfl | rfl | rfl | rfl | rfl | rfl | rfl | rfl | rfl
    all_goals norm_num [mkVertex, abs_le]
  · show (boxVertexTable (0.5 * 1) (0.5 * 1) (0.5 * 1)).length = 24
    rfl
  · show cubeIndexTable.length = 36
    rfl
  all_goals {
    constructor <;>
    · show _ = _
      norm_num [boxVertexTable, mkVertex,
        show (CreateBox 1 1 1 0).Vertices
          = boxVertexTable (0.5 * 1) (0.5 * 1) (0.5 * 1) from rfl]
  }


end GeometryGenerator
